import Mathlib

/-!
# Technicolor CGA4233 client: password derivation, credential envelope and session flow

A shallow embedding of `pkg/client` (`crypto.go`, `client.go`, `dto.go`) together with the
library routines it calls (`encoding/hex`, `crypto/sha256`, `crypto/hmac`,
`golang.org/x/crypto/pbkdf2`, `crypto/aes`, `crypto/cipher`, `encoding/base64`,
`encoding/json` for the one encoded struct, `net/url` form encoding).

Conventions.
* A Go `[]byte` and a Go `string` are both a list of byte values (`Bytes`); the conversions
  `[]byte(s)` and `string(b)` are the identity.
* Machine integers are natural numbers, reduced explicitly where Go truncates.
* The 32-bit word arithmetic of SHA-256 is written with the primitive `Nat` operations
  (`Nat.add`, `Nat.xor`, ...) applied directly, so that closed instances evaluate quickly.
-/

namespace Technicolor

/-- A Go byte slice or string: the list of its byte values. -/
abbrev Bytes := List Nat

/-- The bytes of an ASCII string literal. -/
def ascii (s : String) : Bytes := s.toList.map Char.toNat

/-! ## encoding/hex -/

/-- The digit table of `encoding/hex`: `"0123456789abcdef"`. -/
def hextable : Bytes := [48, 49, 50, 51, 52, 53, 54, 55, 56, 57, 97, 98, 99, 100, 101, 102]

/-- Go `hex.Encode`: two digits per byte, `hextable[v>>4]` then `hextable[v&0x0f]`. -/
def hexEncodeByte (v : Nat) : Bytes := [hextable.getD (v >>> 4) 0, hextable.getD (v &&& 15) 0]

/-- Go `hexEncode` of crypto.go: the lower-case hexadecimal text of `v`. -/
def hexEncode (v : Bytes) : Bytes := v.flatMap hexEncodeByte

/-! ## crypto/sha256 -/

/-- The sixty-four round constants of SHA-256. -/
def sha256K : List Nat := [
  0x428a2f98, 0x71374491, 0xb5c0fbcf, 0xe9b5dba5, 0x3956c25b, 0x59f111f1, 0x923f82a4, 0xab1c5ed5,
  0xd807aa98, 0x12835b01, 0x243185be, 0x550c7dc3, 0x72be5d74, 0x80deb1fe, 0x9bdc06a7, 0xc19bf174,
  0xe49b69c1, 0xefbe4786, 0x0fc19dc6, 0x240ca1cc, 0x2de92c6f, 0x4a7484aa, 0x5cb0a9dc, 0x76f988da,
  0x983e5152, 0xa831c66d, 0xb00327c8, 0xbf597fc7, 0xc6e00bf3, 0xd5a79147, 0x06ca6351, 0x14292967,
  0x27b70a85, 0x2e1b2138, 0x4d2c6dfc, 0x53380d13, 0x650a7354, 0x766a0abb, 0x81c2c92e, 0x92722c85,
  0xa2bfe8a1, 0xa81a664b, 0xc24b8b70, 0xc76c51a3, 0xd192e819, 0xd6990624, 0xf40e3585, 0x106aa070,
  0x19a4c116, 0x1e376c08, 0x2748774c, 0x34b0bcb5, 0x391c0cb3, 0x4ed8aa4a, 0x5b9cca4f, 0x682e6ff3,
  0x748f82ee, 0x78a5636f, 0x84c87814, 0x8cc70208, 0x90befffa, 0xa4506ceb, 0xbef9a3f7, 0xc67178f2]

/-- The low 32 bits of `ROTR 2 x ⊕ ROTR 13 x ⊕ ROTR 22 x` for a 32-bit word `x`. A right
rotation by `n` is the low half of `(x ‖ x) >>> n`, and `x ‖ x = x * (2^32 + 1)`; bits
above the low 32 are left in place, every use reduces modulo `2^32`. -/
def bigSigma0 (x : Nat) : Nat :=
  Nat.xor (Nat.xor (Nat.shiftRight (Nat.mul x 4294967297) 2)
    (Nat.shiftRight (Nat.mul x 4294967297) 13)) (Nat.shiftRight (Nat.mul x 4294967297) 22)

/-- The low 32 bits of `ROTR 6 x ⊕ ROTR 11 x ⊕ ROTR 25 x` (see `bigSigma0`). -/
def bigSigma1 (x : Nat) : Nat :=
  Nat.xor (Nat.xor (Nat.shiftRight (Nat.mul x 4294967297) 6)
    (Nat.shiftRight (Nat.mul x 4294967297) 11)) (Nat.shiftRight (Nat.mul x 4294967297) 25)

/-- The low 32 bits of `ROTR 7 x ⊕ ROTR 18 x ⊕ SHR 3 x` (see `bigSigma0`). -/
def smallSigma0 (x : Nat) : Nat :=
  Nat.xor (Nat.xor (Nat.shiftRight (Nat.mul x 4294967297) 7)
    (Nat.shiftRight (Nat.mul x 4294967297) 18)) (Nat.shiftRight x 3)

/-- The low 32 bits of `ROTR 17 x ⊕ ROTR 19 x ⊕ SHR 10 x` (see `bigSigma0`). -/
def smallSigma1 (x : Nat) : Nat :=
  Nat.xor (Nat.xor (Nat.shiftRight (Nat.mul x 4294967297) 17)
    (Nat.shiftRight (Nat.mul x 4294967297) 19)) (Nat.shiftRight x 10)

/-- The function `Ch(x, y, z) = (x ∧ y) ⊕ (¬x ∧ z)`, in the form `z ⊕ (x ∧ (y ⊕ z))`. -/
def shaCh (x y z : Nat) : Nat := Nat.xor z (Nat.land x (Nat.xor y z))

/-- The function `Maj(x, y, z) = (x ∧ y) ⊕ (x ∧ z) ⊕ (y ∧ z)`, in the form `(x ∧ y) ∨ (z ∧ (x ∨ y))`. -/
def shaMaj (x y z : Nat) : Nat := Nat.lor (Nat.land x y) (Nat.land z (Nat.lor x y))

/-- The eight 32-bit chaining words of a SHA-256 digest object (`d.h`). -/
structure SHA256State where
  a : Nat
  b : Nat
  c : Nat
  d : Nat
  e : Nat
  f : Nat
  g : Nat
  h : Nat
deriving DecidableEq, Repr

/-- The initial chaining value of SHA-256. -/
def sha256Init : SHA256State :=
  ⟨0x6a09e667, 0xbb67ae85, 0x3c6ef372, 0xa54ff53a, 0x510e527f, 0x9b05688c, 0x1f83d9ab, 0x5be0cd19⟩

/-- One round on the working variables; `kw` is `K[t] + W[t]`. -/
def sha256Round (s : SHA256State) (kw : Nat) : SHA256State :=
  match s with
  | ⟨a, b, c, d, e, f, g, h⟩ =>
    ⟨Nat.mod (Nat.add (Nat.add (Nat.add (Nat.add (Nat.add h (bigSigma1 e)) (shaCh e f g)) kw)
        (bigSigma0 a)) (shaMaj a b c)) 4294967296,
      a, b, c,
      Nat.mod (Nat.add d (Nat.add (Nat.add (Nat.add h (bigSigma1 e)) (shaCh e f g)) kw)) 4294967296,
      e, f, g⟩

/-- The rounds of one block, one per remaining round constant. The message schedule is kept
as the window of its sixteen most recent words: round `t` consumes `W[t]` and appends
`W[t+16] = σ1(W[t+14]) + W[t+9] + σ0(W[t+1]) + W[t]`. -/
def sha256Rounds : List Nat → SHA256State →
    (w0 w1 w2 w3 w4 w5 w6 w7 w8 w9 w10 w11 w12 w13 w14 w15 : Nat) → SHA256State
  | [], s, _, _, _, _, _, _, _, _, _, _, _, _, _, _, _, _ => s
  | k :: ks, s, w0, w1, w2, w3, w4, w5, w6, w7, w8, w9, w10, w11, w12, w13, w14, w15 =>
    sha256Rounds ks (sha256Round s (Nat.add k w0))
      w1 w2 w3 w4 w5 w6 w7 w8 w9 w10 w11 w12 w13 w14 w15
      (Nat.mod (Nat.add (Nat.add (Nat.add (smallSigma1 w14) w9) (smallSigma0 w1)) w0) 4294967296)

/-- Word-wise addition modulo `2^32` of two chaining values. -/
def sha256Add (s r : SHA256State) : SHA256State :=
  match s, r with
  | ⟨a, b, c, d, e, f, g, h⟩, ⟨a2, b2, c2, d2, e2, f2, g2, h2⟩ =>
    ⟨Nat.mod (Nat.add a a2) 4294967296, Nat.mod (Nat.add b b2) 4294967296,
      Nat.mod (Nat.add c c2) 4294967296, Nat.mod (Nat.add d d2) 4294967296,
      Nat.mod (Nat.add e e2) 4294967296, Nat.mod (Nat.add f f2) 4294967296,
      Nat.mod (Nat.add g g2) 4294967296, Nat.mod (Nat.add h h2) 4294967296⟩

/-- The compression function on the sixteen big-endian words of a block. -/
def sha256Compress (s : SHA256State) (w : List Nat) : SHA256State :=
  match w with
  | [w0, w1, w2, w3, w4, w5, w6, w7, w8, w9, w10, w11, w12, w13, w14, w15] =>
    sha256Add s (sha256Rounds sha256K s w0 w1 w2 w3 w4 w5 w6 w7 w8 w9 w10 w11 w12 w13 w14 w15)
  | _ => s

/-- The big-endian 32-bit words of a byte string (a trailing partial word is dropped). -/
def wordsBE : Bytes → List Nat
  | b0 :: b1 :: b2 :: b3 :: r =>
    Nat.add (Nat.add (Nat.add (Nat.mul b0 16777216) (Nat.mul b1 65536)) (Nat.mul b2 256)) b3
      :: wordsBE r
  | _ => []

/-- The `n` low-order bytes of `x`, most significant first. -/
def bytesBE : Nat → Nat → Bytes
  | 0, _ => []
  | n + 1, x => Nat.mod (Nat.shiftRight x (Nat.mul 8 n)) 256 :: bytesBE n x

/-- Absorb `n` consecutive 64-byte blocks of `m`. -/
def sha256Blocks : Nat → SHA256State → Bytes → SHA256State
  | 0, s, _ => s
  | n + 1, s, m => sha256Blocks n (sha256Compress s (wordsBE (m.take 64))) (m.drop 64)

/-- The padding appended by `Sum` to a message of `len` bytes: `0x80`, zeros up to 56
modulo 64, then the bit length as a big-endian `uint64`. -/
def sha256Padding (len : Nat) : Bytes :=
  128 :: List.replicate ((if len % 64 < 56 then 56 - len % 64 else 64 + 56 - len % 64) - 1) 0
    ++ bytesBE 8 ((len * 8) % 18446744073709551616)

/-- The 32 digest bytes of a chaining value. -/
def sha256Digest (s : SHA256State) : Bytes :=
  bytesBE 4 s.a ++ bytesBE 4 s.b ++ bytesBE 4 s.c ++ bytesBE 4 s.d ++
    bytesBE 4 s.e ++ bytesBE 4 s.f ++ bytesBE 4 s.g ++ bytesBE 4 s.h

/-- Go `Sum` of a digest object whose chaining value is `s` after `absorbed` bytes (a multiple
of 64) and to which `msg` is then written. -/
def sha256Sum (s : SHA256State) (absorbed : Nat) (msg : Bytes) : Bytes :=
  sha256Digest (sha256Blocks ((msg.length + (sha256Padding (absorbed + msg.length)).length) / 64) s
    (msg ++ sha256Padding (absorbed + msg.length)))

/-- Go `sha256.Sum256`. -/
def sha256 (msg : Bytes) : Bytes := sha256Sum sha256Init 0 msg

/-! ## crypto/hmac with SHA-256 -/

/-- A keyed HMAC-SHA256 object as `hmac.New` leaves it: the inner hash has absorbed
`key ⊕ ipad`, the outer hash `key ⊕ opad`. -/
structure HMACState where
  inner : SHA256State
  outer : SHA256State
deriving DecidableEq, Repr

/-- The 64-byte key block: a key longer than the block size is hashed first, then the key is
zero-padded. -/
def hmacKeyBlock (key : Bytes) : Bytes :=
  (if key.length > 64 then sha256 key else key) ++
    List.replicate (64 - (if key.length > 64 then sha256 key else key).length) 0

/-- Go `hmac.New(sha256.New, key)`. -/
def hmacNew (key : Bytes) : HMACState :=
  ⟨sha256Compress sha256Init (wordsBE ((hmacKeyBlock key).map fun b => Nat.xor b 54)),
    sha256Compress sha256Init (wordsBE ((hmacKeyBlock key).map fun b => Nat.xor b 92))⟩

/-- The MAC of `msg`: `Reset`, `Write(msg)`, `Sum`. -/
def hmacSum (p : HMACState) (msg : Bytes) : Bytes :=
  sha256Sum p.outer 64 (sha256Sum p.inner 64 msg)

/-! ## golang.org/x/crypto/pbkdf2 -/

/-- Byte-wise exclusive or (`T[x] ^= U[x]`). -/
def xorBytes (t u : Bytes) : Bytes := List.zipWith Nat.xor t u

/-- The inner loop of `pbkdf2.Key`: `n` further applications of the PRF, folding each
`U` into `T`; the result is `T`. -/
def pbkdf2Loop (prf : HMACState) : Nat → Bytes → Bytes → Bytes
  | 0, _, t => t
  | n + 1, u, t => pbkdf2Loop prf n (hmacSum prf u) (xorBytes t (hmacSum prf u))

/-- One output block `T_block = U_1 ⊕ ... ⊕ U_iter`, with `U_1 = PRF(salt ‖ INT(block))`. -/
def pbkdf2Block (prf : HMACState) (salt : Bytes) (iter block : Nat) : Bytes :=
  pbkdf2Loop prf (iter - 1) (hmacSum prf (salt ++ bytesBE 4 block))
    (hmacSum prf (salt ++ bytesBE 4 block))

/-- Go `pbkdf2.Key(password, salt, iter, keyLen, sha256.New)`. -/
def pbkdf2Key (password salt : Bytes) (iter keyLen : Nat) : Bytes :=
  ((List.range ((keyLen + 32 - 1) / 32)).flatMap fun i =>
    pbkdf2Block (hmacNew password) salt iter (i + 1)).take keyLen

/-! ## crypto.go: password derivation -/

/-- The constant `defaultPBKDF2iter`. -/
def defaultPBKDF2iter : Nat := 1000

/-- The constant `defaultPBKDF2keyLenBytes`. -/
def defaultPBKDF2keyLenBytes : Nat := 16

/-- Go `doPBKDF2`: the hex text of the derived key. -/
def doPBKDF2 (password salt : Bytes) (iter keyLenBytes : Nat) : Bytes :=
  hexEncode (pbkdf2Key password salt iter keyLenBytes)

/-- Go `defaultDoPBKDF2`. -/
def defaultDoPBKDF2 (password salt : Bytes) : Bytes :=
  doPBKDF2 password salt defaultPBKDF2iter defaultPBKDF2keyLenBytes

/-- Go `doPBKDF2WebUI`: a first round salted with `salt`, whose hex text is the password of a
second round salted with `saltWebUI`. -/
def doPBKDF2WebUI (password salt saltWebUI : Bytes) (iter keyLenBytes : Nat) : Bytes :=
  doPBKDF2 (doPBKDF2 password salt iter keyLenBytes) saltWebUI iter keyLenBytes

/-- The variable `noneStr = []byte("none")`. -/
def noneStr : Bytes := [110, 111, 110, 101]

/-- Go `derivePasswordWebUI`: the password itself when the salt is `noneStr`, otherwise the
two-round derivation. -/
def derivePasswordWebUI (password salt saltWebUI : Bytes) (iter keyLenBytes : Nat) : Bytes :=
  if salt = noneStr then password
  else doPBKDF2WebUI password salt saltWebUI iter keyLenBytes

/-- Go `DefaultDerivePasswordWebUI`. -/
def DefaultDerivePasswordWebUI (password salt saltWebUI : Bytes) : Bytes :=
  derivePasswordWebUI password salt saltWebUI defaultPBKDF2iter defaultPBKDF2keyLenBytes

/-! ## crypto.go: padding -/

/-- Go `binary.BigEndian.PutUint32`: the four bytes of a `uint32`, most significant first. -/
def putUint32BE (v : Nat) : Bytes :=
  [(v >>> 24) % 256, (v >>> 16) % 256, (v >>> 8) % 256, v % 256]

/-- Go `addPKCS5Padding`: the plaintext followed by four copies of the big-endian bytes of
`uint32((16 - (len(plaintext) & 15)) * 0x1010101)`. -/
def addPKCS5Padding (plaintext : Bytes) : Bytes :=
  let pad4 := putUint32BE (((16 - (plaintext.length &&& 15)) * 0x1010101) % 4294967296)
  plaintext ++ pad4 ++ pad4 ++ pad4 ++ pad4

/-! ## Errors and outcomes -/

/-- Go `error` values, as far as the client distinguishes them. -/
inductive Err where
  /-- An error value returned by the transport or by a library call. -/
  | lib (code : Nat)
  /-- The value `aes.KeySizeError(k)`. -/
  | keySize (k : Nat)
  /-- The value `errors.New(text)`. -/
  | new (text : String)
  /-- The value `fmt.Errorf(context + ": %w", cause)`; also the two calls in `doAndDecode`
  whose format differs, one printing the cause with `%v`, one appending the raw response. -/
  | wrap (context : String) (cause : Err)
  /-- The error of `response.Validate`, carrying `Error`, `Message` and `Data`. -/
  | validate (error message data : Bytes)
deriving DecidableEq, Repr

/-- How a call ends: with a value, with a Go error, or in a run-time panic. -/
inductive Outcome (α : Type) where
  | ok (val : α)
  | error (e : Err)
  | panic
deriving DecidableEq, Repr

/-! ## crypto/aes and crypto/cipher (CBC) -/

/-- The AES substitution box. -/
def aesSbox : Bytes := [
  0x63, 0x7c, 0x77, 0x7b, 0xf2, 0x6b, 0x6f, 0xc5, 0x30, 0x01, 0x67, 0x2b, 0xfe, 0xd7, 0xab, 0x76,
  0xca, 0x82, 0xc9, 0x7d, 0xfa, 0x59, 0x47, 0xf0, 0xad, 0xd4, 0xa2, 0xaf, 0x9c, 0xa4, 0x72, 0xc0,
  0xb7, 0xfd, 0x93, 0x26, 0x36, 0x3f, 0xf7, 0xcc, 0x34, 0xa5, 0xe5, 0xf1, 0x71, 0xd8, 0x31, 0x15,
  0x04, 0xc7, 0x23, 0xc3, 0x18, 0x96, 0x05, 0x9a, 0x07, 0x12, 0x80, 0xe2, 0xeb, 0x27, 0xb2, 0x75,
  0x09, 0x83, 0x2c, 0x1a, 0x1b, 0x6e, 0x5a, 0xa0, 0x52, 0x3b, 0xd6, 0xb3, 0x29, 0xe3, 0x2f, 0x84,
  0x53, 0xd1, 0x00, 0xed, 0x20, 0xfc, 0xb1, 0x5b, 0x6a, 0xcb, 0xbe, 0x39, 0x4a, 0x4c, 0x58, 0xcf,
  0xd0, 0xef, 0xaa, 0xfb, 0x43, 0x4d, 0x33, 0x85, 0x45, 0xf9, 0x02, 0x7f, 0x50, 0x3c, 0x9f, 0xa8,
  0x51, 0xa3, 0x40, 0x8f, 0x92, 0x9d, 0x38, 0xf5, 0xbc, 0xb6, 0xda, 0x21, 0x10, 0xff, 0xf3, 0xd2,
  0xcd, 0x0c, 0x13, 0xec, 0x5f, 0x97, 0x44, 0x17, 0xc4, 0xa7, 0x7e, 0x3d, 0x64, 0x5d, 0x19, 0x73,
  0x60, 0x81, 0x4f, 0xdc, 0x22, 0x2a, 0x90, 0x88, 0x46, 0xee, 0xb8, 0x14, 0xde, 0x5e, 0x0b, 0xdb,
  0xe0, 0x32, 0x3a, 0x0a, 0x49, 0x06, 0x24, 0x5c, 0xc2, 0xd3, 0xac, 0x62, 0x91, 0x95, 0xe4, 0x79,
  0xe7, 0xc8, 0x37, 0x6d, 0x8d, 0xd5, 0x4e, 0xa9, 0x6c, 0x56, 0xf4, 0xea, 0x65, 0x7a, 0xae, 0x08,
  0xba, 0x78, 0x25, 0x2e, 0x1c, 0xa6, 0xb4, 0xc6, 0xe8, 0xdd, 0x74, 0x1f, 0x4b, 0xbd, 0x8b, 0x8a,
  0x70, 0x3e, 0xb5, 0x66, 0x48, 0x03, 0xf6, 0x0e, 0x61, 0x35, 0x57, 0xb9, 0x86, 0xc1, 0x1d, 0x9e,
  0xe1, 0xf8, 0x98, 0x11, 0x69, 0xd9, 0x8e, 0x94, 0x9b, 0x1e, 0x87, 0xe9, 0xce, 0x55, 0x28, 0xdf,
  0x8c, 0xa1, 0x89, 0x0d, 0xbf, 0xe6, 0x42, 0x68, 0x41, 0x99, 0x2d, 0x0f, 0xb0, 0x54, 0xbb, 0x16]

/-- AES `SubBytes` on one byte. -/
def aesSub (b : Nat) : Nat := aesSbox.getD b 0

/-- Multiplication by `x` in GF(2^8) modulo `x^8 + x^4 + x^3 + x + 1`. -/
def aesXtime (b : Nat) : Nat := if b < 128 then 2 * b else ((2 * b) % 256) ^^^ 27

/-- The round constants `x^(i-1)`. -/
def aesRcon : List Nat := [1, 2, 4, 8, 16, 32, 64, 128, 27, 54]

/-- Split a byte string into consecutive groups of `size` bytes (`n` groups). -/
def chunksOf (size : Nat) : Nat → Bytes → List Bytes
  | 0, _ => []
  | n + 1, b => b.take size :: chunksOf size n (b.drop size)

/-- Word `w[i]` of the key schedule from the words `ws = w[0..i-1]`, for a key of `nk`
words. -/
def aesNextWord (nk i : Nat) (ws : List Bytes) : Bytes :=
  xorBytes (ws.getD (i - nk) [])
    (if i % nk = 0 then
      xorBytes (((ws.getD (i - 1) []).rotate 1).map aesSub) [aesRcon.getD (i / nk - 1) 0, 0, 0, 0]
    else if nk > 6 ∧ i % nk = 4 then (ws.getD (i - 1) []).map aesSub
    else ws.getD (i - 1) [])

/-- Extend the key schedule by `n` words. -/
def aesExpandLoop (nk : Nat) : Nat → List Bytes → List Bytes
  | 0, ws => ws
  | n + 1, ws => aesExpandLoop nk n (ws ++ [aesNextWord nk ws.length ws])

/-- The round keys (16 bytes each) of a key of 16, 24 or 32 bytes: `Nr + 1` of them with
`Nr = Nk + 6`. -/
def aesExpandKey (key : Bytes) : List Bytes :=
  chunksOf 16 (key.length / 4 + 7)
    (aesExpandLoop (key.length / 4) (4 * (key.length / 4 + 7) - key.length / 4)
      (chunksOf 4 (key.length / 4) key)).flatten

/-- Go `aes.NewCipher`: the round keys, or no cipher when the key is not 16, 24 or 32 bytes
long (`KeySizeError`). -/
def aesNewCipher (key : Bytes) : Option (List Bytes) :=
  if key.length = 16 ∨ key.length = 24 ∨ key.length = 32 then some (aesExpandKey key) else none

/-- AES `ShiftRows` on the column-major state. -/
def aesShiftRows (s : Bytes) : Bytes :=
  (List.range 16).map fun i => s.getD ((i + 4 * (i % 4)) % 16) 0

/-- AES `MixColumns` on one column. -/
def aesMixColumn : Bytes → Bytes
  | [a0, a1, a2, a3] =>
    [aesXtime a0 ^^^ (aesXtime a1 ^^^ a1) ^^^ a2 ^^^ a3,
     a0 ^^^ aesXtime a1 ^^^ (aesXtime a2 ^^^ a2) ^^^ a3,
     a0 ^^^ a1 ^^^ aesXtime a2 ^^^ (aesXtime a3 ^^^ a3),
     (aesXtime a0 ^^^ a0) ^^^ a1 ^^^ a2 ^^^ aesXtime a3]
  | col => col

/-- AES `MixColumns` on the state. -/
def aesMixColumns (s : Bytes) : Bytes := (chunksOf 4 4 s).flatMap aesMixColumn

/-- The rounds after the initial key addition; the last one has no `MixColumns`. -/
def aesRounds : List Bytes → Bytes → Bytes
  | [], s => s
  | [kLast], s => xorBytes (aesShiftRows (s.map aesSub)) kLast
  | k :: k2 :: ks, s =>
    aesRounds (k2 :: ks) (xorBytes (aesMixColumns (aesShiftRows (s.map aesSub))) k)

/-- Go `Block.Encrypt` on one 16-byte block. -/
def aesEncryptBlock (roundKeys : List Bytes) (block : Bytes) : Bytes :=
  match roundKeys with
  | [] => block
  | k0 :: ks => aesRounds ks (xorBytes block k0)

/-- Go `CryptBlocks` of a CBC encrypter over `n` blocks, `prev` being the IV or the previous
ciphertext block. -/
def cbcCryptBlocks (roundKeys : List Bytes) : Nat → Bytes → Bytes → Bytes
  | 0, _, _ => []
  | n + 1, prev, src =>
    aesEncryptBlock roundKeys (xorBytes (src.take 16) prev) ++
      cbcCryptBlocks roundKeys n (aesEncryptBlock roundKeys (xorBytes (src.take 16) prev))
        (src.drop 16)

/-- Go `aes128cbc` of crypto.go. `aes.NewCipher` may return an error; `cipher.NewCBCEncrypter`
panics unless the IV has 16 bytes; `CryptBlocks` panics unless the padded plaintext is a
whole number of blocks. -/
def aes128cbc (key iv plaintext : Bytes) : Outcome Bytes :=
  match aesNewCipher key with
  | none => .error (.wrap "create aes cipher" (.keySize key.length))
  | some roundKeys =>
    if iv.length ≠ 16 then .panic
    else if (addPKCS5Padding plaintext).length % 16 ≠ 0 then .panic
    else .ok (cbcCryptBlocks roundKeys ((addPKCS5Padding plaintext).length / 16) iv
      (addPKCS5Padding plaintext))

/-! ## encoding/base64 -/

/-- The alphabet of `base64.StdEncoding`. -/
def base64Table : Bytes :=
  ascii "ABCDEFGHIJKLMNOPQRSTUVWXYZabcdefghijklmnopqrstuvwxyz0123456789+/"

/-- The character of a 6-bit value. -/
def base64Char (v : Nat) : Nat := base64Table.getD v 0

/-- Go `base64.StdEncoding.EncodeToString`: four characters per three bytes, the last group
padded with `=`. -/
def base64Encode : Bytes → Bytes
  | b0 :: b1 :: b2 :: r =>
    base64Char (b0 >>> 2) :: base64Char (((b0 &&& 3) <<< 4) ||| (b1 >>> 4)) ::
      base64Char (((b1 &&& 15) <<< 2) ||| (b2 >>> 6)) :: base64Char (b2 &&& 63) ::
      base64Encode r
  | [b0, b1] =>
    [base64Char (b0 >>> 2), base64Char (((b0 &&& 3) <<< 4) ||| (b1 >>> 4)),
      base64Char ((b1 &&& 15) <<< 2), 61]
  | [b0] => [base64Char (b0 >>> 2), base64Char ((b0 &&& 3) <<< 4), 61, 61]
  | [] => []

/-! ## encoding/json: encoding of sjclData -/

/-- The struct `sjclData` of dto.go, fields in declaration order. -/
structure sjclData where
  Cipher : Bytes
  Mode : Bytes
  IV : Bytes
  Salt : Bytes
  AuthenticatedData : Bytes
  CipherText : Bytes
  V : Int
  Iter : Int
  KeySize : Int
  TagSize : Int
deriving DecidableEq, Repr

/-- A member value of a JSON object: a string or an integer. -/
inductive JSONValue where
  | str (s : Bytes)
  | int (n : Int)
deriving DecidableEq, Repr

/-- The encoding of one byte inside a JSON string, as the encoder writes it with HTML
escaping on (its default): printable ASCII other than the double quote, backslash, `<`, `>`
and `&` is copied, the named control characters get their short escape, other ASCII bytes
become `\u00XX`. Bytes from 0x80 on are copied; the encoder copies well-formed UTF-8 other
than U+2028 and U+2029, and no such byte occurs in the strings this program encodes. -/
def jsonEscapeByte (b : Nat) : Bytes :=
  if b = 34 ∨ b = 92 then [92, b]
  else if b = 8 then [92, 98]
  else if b = 12 then [92, 102]
  else if b = 10 then [92, 110]
  else if b = 13 then [92, 114]
  else if b = 9 then [92, 116]
  else if b < 32 ∨ b = 60 ∨ b = 62 ∨ b = 38 then
    [92, 117, 48, 48, hextable.getD (b >>> 4) 0, hextable.getD (b &&& 15) 0]
  else [b]

/-- A JSON string literal. -/
def jsonString (s : Bytes) : Bytes := [34] ++ s.flatMap jsonEscapeByte ++ [34]

/-- The decimal text of an integer. -/
def jsonInt (n : Int) : Bytes :=
  (if n < 0 then [45] else []) ++ (Nat.toDigits 10 n.natAbs).map Char.toNat

/-- The text of a member value. -/
def JSONValue.render : JSONValue → Bytes
  | .str s => jsonString s
  | .int n => jsonInt n

/-- The text of a JSON object with the given members, in order, without white space. -/
def jsonObject (members : List (Bytes × JSONValue)) : Bytes :=
  [123] ++ ((members.map fun m => jsonString m.1 ++ [58] ++ m.2.render).intersperse [44]).flatten
    ++ [125]

/-- The members of the object that encodes a `sjclData`, named by its `json` tags. -/
def sjclData.members (sd : sjclData) : List (Bytes × JSONValue) :=
  [(ascii "cipher", .str sd.Cipher), (ascii "mode", .str sd.Mode), (ascii "iv", .str sd.IV),
   (ascii "salt", .str sd.Salt), (ascii "adata", .str sd.AuthenticatedData),
   (ascii "ct", .str sd.CipherText), (ascii "v", .int sd.V), (ascii "iter", .int sd.Iter),
   (ascii "ks", .int sd.KeySize), (ascii "ts", .int sd.TagSize)]

/-- Go `json.NewEncoder(b).Encode(sd)`: the object followed by a newline. -/
def jsonEncodeSjclData (sd : sjclData) : Bytes := jsonObject sd.members ++ [10]

/-! ## httpdoer.KeyValue and net/url form encoding -/

/-- Go `httpdoer.KeyValue`, a `map[string]string`, as the list of its entries (keys distinct). -/
abbrev KeyValue := List (Bytes × Bytes)

/-- The digit table of `net/url`: `"0123456789ABCDEF"`. -/
def upperhex : Bytes := [48, 49, 50, 51, 52, 53, 54, 55, 56, 57, 65, 66, 67, 68, 69, 70]

/-- Go `shouldEscape(c, encodeQueryComponent)`: everything except letters, digits and
`-`, `_`, `.`, `~`. -/
def shouldEscape (c : Nat) : Bool :=
  !((97 ≤ c && c ≤ 122) || (65 ≤ c && c ≤ 90) || (48 ≤ c && c ≤ 57) ||
    c == 45 || c == 95 || c == 46 || c == 126)

/-- The escape of one byte: itself, `+` for a space, or `%XX`. -/
def queryEscapeByte (c : Nat) : Bytes :=
  if shouldEscape c then
    if c = 32 then [43] else [37, upperhex.getD (c >>> 4) 0, upperhex.getD (c &&& 15) 0]
  else [c]

/-- Go `url.QueryEscape`. -/
def queryEscape (s : Bytes) : Bytes := s.flatMap queryEscapeByte

/-- Go string order `a < b`: lexicographic on bytes. -/
def bytesLess : Bytes → Bytes → Bool
  | _, [] => false
  | [], _ :: _ => true
  | x :: a, y :: b => x < y || (x == y && bytesLess a b)

/-- Insert an entry into a list sorted by key. -/
def insertByKey (p : Bytes × Bytes) : KeyValue → KeyValue
  | [] => [p]
  | q :: r => if bytesLess q.1 p.1 then q :: insertByKey p r else p :: q :: r

/-- The entries in increasing key order (`slices.Sorted(maps.Keys(v))`). -/
def sortByKey : KeyValue → KeyValue
  | [] => []
  | p :: r => insertByKey p (sortByKey r)

/-- Go `kv.ToURLValues().Encode()`: `key=value` pairs, both escaped, sorted by key and joined
by `&`. -/
def urlValuesEncode (kv : KeyValue) : Bytes :=
  (((sortByKey kv).map fun p => queryEscape p.1 ++ [61] ++ queryEscape p.2).intersperse
    [38]).flatten

/-! ## crypto.go: randomness and the change-password body -/

/-- The constant `b62dict`. -/
def b62dict : Bytes := ascii "0123456789ABCDEFGHIJKLMNOPQRSTUVWXYZabcdefghijklmnopqrstuvwxyz"

/-- The mapping that `randomBase62` applies to the bytes read from `rand`:
`b62dict[int(p[i]) % len(b62dict)]`. -/
def toBase62 (p : Bytes) : Bytes := p.map fun b => b62dict.getD (b % b62dict.length) 0

/-- Go `newPasswordChangeRequestBody`. The slice expression `rndBase62[:11]` panics when the
slice is shorter than 11 bytes (its capacity is taken to be its length); `json.Encode` of a
`sjclData` cannot fail. -/
def newPasswordChangeRequestBody (newUser oldPass newPass oldPassSalt rndBase62 aesIV
    newPassSalt : Bytes) : Outcome Bytes :=
  if rndBase62.length < 11 then .panic
  else
    match aes128cbc
        (pbkdf2Key (defaultDoPBKDF2 (defaultDoPBKDF2 oldPass oldPassSalt) (rndBase62.drop 11))
          newPassSalt 1000 16)
        aesIV (defaultDoPBKDF2 newPass (rndBase62.take 11)) with
    | .error e => .error (.wrap "encrypt with aes-128-cbc" e)
    | .panic => .panic
    | .ok ciphertext =>
      .ok (urlValuesEncode
        [(ascii "login_salt", rndBase62.take 11),
         (ascii "login_salt3", rndBase62.drop 11),
         (ascii "login_password", jsonEncodeSjclData
            { IV := base64Encode aesIV, V := 1, Iter := 1000, KeySize := 128, TagSize := 64,
              Mode := ascii "cbc", AuthenticatedData := [], Cipher := ascii "aes",
              Salt := base64Encode newPassSalt, CipherText := base64Encode ciphertext }),
         (ascii "myusername", newUser)])

/-! ## dto.go: responses -/

/-- The struct `response`. `Data` (a `map[string]any`) is kept as an uninterpreted value. -/
structure response where
  Error : Bytes
  Message : Bytes
  Data : Bytes
deriving DecidableEq, Repr

/-- The struct `loginResponse`: an embedded `response` and the two `json.RawMessage`
fields, which hold the raw JSON text of their values. -/
structure loginResponse extends response where
  Salt : Bytes
  SaltWebUI : Bytes
deriving DecidableEq, Repr

/-- Lower-casing of one ASCII byte. -/
def asciiLower (b : Nat) : Nat := if 65 ≤ b ∧ b ≤ 90 then b + 32 else b

/-- Go `strings.ToLower`: byte-wise on an all-ASCII string, otherwise the library mapping of
the runes, which is taken as a parameter. -/
def stringsToLower (unicodeLower : Bytes → Bytes) (s : Bytes) : Bytes :=
  if s.all (fun b => decide (b < 128)) then s.map asciiLower else unicodeLower s

/-- Go `response.Validate`: an error unless the lower-cased `Error` field is `"ok"`. -/
def response.Validate (unicodeLower : Bytes → Bytes) (r : response) : Option Err :=
  if stringsToLower unicodeLower r.Error ≠ ascii "ok" then
    some (.validate r.Error r.Message r.Data)
  else none

/-! ## client.go: the environment of a client -/

/-- An HTTP request as the client builds it. -/
structure Request where
  method : Bytes
  url : Bytes
  body : Option Bytes
deriving DecidableEq, Repr

/-- Everything a client call depends on besides the client itself, over a state `σ` of the
outside world: the transport, the random source, the outcome of lock attempts, and the
library calls whose results the code only inspects. -/
structure Env (σ : Type) where
  /-- `HTTPDoer.Do`, with the buffering that `New` installs: the response body or an error.
  Cancellation of the context shows as an error. -/
  Do : σ → Request → Except Err Bytes × σ
  /-- `rand.Read` for a buffer of the given length. -/
  randRead : σ → Nat → Except Err Bytes × σ
  /-- Whether `TryLock` or `TryRLock` on `loginResponseMu` succeeds. -/
  tryLock : σ → Bool × σ
  /-- The error of `http.NewRequestWithContext` for a URL, if any. -/
  newRequestErr : Bytes → Option Err
  /-- `json.Unmarshal` of a body other than the literal `null` into the interface that holds
  a pointer to a zero `loginResponse`: an error, or the response that the pointer then
  refers to. For the literal `null` see `jsonIsNull`. -/
  unmarshal : Bytes → Except Err loginResponse
  /-- The non-ASCII branch of `strings.ToLower`. -/
  unicodeLower : Bytes → Bytes

/-- The struct `Params` without its `HTTPDoer`, which is `Env.Do`. -/
structure Params where
  BaseURL : Bytes
  UserAgent : Bytes
  Username : Bytes
  Password : Bytes
  DefaultUsername : Bytes
  DefaultPassword : Bytes
  TryDefaultAuthFirst : Bool
  SetAuthIfDefault : Bool
  TLSVerify : Bool
deriving DecidableEq, Repr

/-- The struct `client`: its parameters and the stored login response (`nil` is `none`). -/
structure client extends Params where
  loginResponse : Option loginResponse
deriving DecidableEq, Repr

/-- The result of a client method: how it ended, the client afterwards, the world
afterwards. -/
abbrev Result (σ α : Type) := Outcome α × client × σ

/-! ## client.go: defaults of the parameters -/

/-- The constant `DefaultBaseURL`. -/
def DefaultBaseURL : Bytes := ascii "https://192.168.0.1"

/-- The constant `DefaultUserAgent`. -/
def DefaultUserAgent : Bytes :=
  ascii ("Mozilla/5.0 (Windows NT 10.0; Win64; x64) " ++
    "AppleWebKit/537.36 (KHTML, like Gecko) Chrome/128.0.0.0 Safari/537.36")

/-- The constant `defaultUsername`. -/
def defaultUsername : Bytes := ascii "custadmin"

/-- The constant `defaultPassword`. -/
def defaultPassword : Bytes := ascii "cga4233"

/-- Go `cmp.Or` on strings: the first argument that is not the empty string, or the empty
string when there is none. -/
def cmpOr : List Bytes → Bytes
  | [] => []
  | v :: vs => if v ≠ [] then v else cmpOr vs

/-- The values of the field `Params.HTTPDoer`, which the model keeps beside the struct: a
doer supplied by the caller, or the one that `httpdoer.New(allowInsecure)` makes. A nil
field is `none`. -/
inductive HTTPDoer where
  | supplied (id : Nat)
  | new (allowInsecure : Bool)
deriving DecidableEq, Repr

/-- The first statement of `WithDefaults`, which acts on the field `HTTPDoer` alone: a nil
doer is replaced by `httpdoer.New(!p.TLSVerify)`. -/
def Params.withDefaultHTTPDoer (p : Params) (doer : Option HTTPDoer) : HTTPDoer :=
  match doer with
  | none => .new (!p.TLSVerify)
  | some d => d

/-- Go `Params.WithDefaults` on the fields of the struct (for `HTTPDoer` see
`Params.withDefaultHTTPDoer`): empty strings are replaced by the defaults, then the two
flags are cleared when the credentials are the default ones. -/
def Params.WithDefaults (p : Params) : Params :=
  let p := { p with BaseURL := cmpOr [p.BaseURL, DefaultBaseURL] }
  let p := { p with UserAgent := cmpOr [p.UserAgent, DefaultUserAgent] }
  let p := { p with Username := cmpOr [p.Username, defaultUsername] }
  let p := { p with Password := cmpOr [p.Password, defaultPassword] }
  let p := { p with DefaultUsername := cmpOr [p.DefaultUsername, defaultUsername] }
  let p := { p with DefaultPassword := cmpOr [p.DefaultPassword, defaultPassword] }
  if p.Username = p.DefaultUsername ∧ p.Password = p.DefaultPassword then
    { p with TryDefaultAuthFirst := false, SetAuthIfDefault := false }
  else p

/-! ## client.go: methods -/

/-- Go `storeLoginResponse`. -/
def client.storeLoginResponse {σ : Type} (env : Env σ) (c : client) (w : σ)
    (res : Option Technicolor.loginResponse) : Result σ Unit :=
  if (env.tryLock w).1 then (.ok (), { c with loginResponse := res }, (env.tryLock w).2)
  else (.error (.new "could not acquire lock to store login response"), c, (env.tryLock w).2)

/-- Go `loadLoginResponse`. -/
def client.loadLoginResponse {σ : Type} (env : Env σ) (c : client) (w : σ) :
    Result σ (Option Technicolor.loginResponse) :=
  if (env.tryLock w).1 then (.ok c.loginResponse, c, (env.tryLock w).2)
  else (.error (.new "could not acquire lock to load login response"), c, (env.tryLock w).2)

/-- The white space of JSON: space, tab, line feed, carriage return. -/
def jsonIsSpace (b : Nat) : Bool := b = 32 || b = 9 || b = 10 || b = 13

/-- Whether a body is the JSON literal `null`, with white space allowed before and after.
`json.Unmarshal(body, &resPtr)` accepts such a body without error and stores the literal in
the interface `resPtr` itself, which becomes nil. -/
def jsonIsNull (body : Bytes) : Bool :=
  ((body.dropWhile jsonIsSpace).reverse.dropWhile jsonIsSpace).reverse = ascii "null"

/-- Go `doAndDecode`. `decode` says whether `resPtr` is non-nil, in which case the body is
decoded into a `loginResponse` and validated; the result is the body and the decoded
response. On a body that is the literal `null` the decoding leaves `resPtr` nil, the type
assertion yields a nil `v`, and the call `v.Validate()` panics. The client is only read. -/
def client.doAndDecode {σ : Type} (env : Env σ) (c : client) (w : σ) (method endpoint : Bytes)
    (body : Option Bytes) (decode : Bool) : Outcome (Bytes × Option Technicolor.loginResponse) × σ :=
  match env.newRequestErr (c.BaseURL ++ endpoint) with
  | some e => (.error (.wrap "build request" e), w)
  | none =>
    match env.Do w ⟨method, c.BaseURL ++ endpoint, body⟩ with
    | (.error e, w1) => (.error (.wrap "perform request" e), w1)
    | (.ok resBytes, w1) =>
      if decode then
        if jsonIsNull resBytes then (.panic, w1)
        else
          match env.unmarshal resBytes with
          | .error e => (.error (.wrap "decode JSON body" e), w1)
          | .ok res =>
            match res.toresponse.Validate env.unicodeLower with
            | some e => (.error (.wrap "validate response" e), w1)
            | none => (.ok (resBytes, some res), w1)
      else (.ok (resBytes, none), w1)

/-- Go `callLogin`. -/
def client.callLogin {σ : Type} (env : Env σ) (c : client) (w : σ) (user pass : Bytes) :
    Outcome Technicolor.loginResponse × σ :=
  match c.doAndDecode env w (ascii "POST") (ascii "/api/v1/session/login")
      (some (urlValuesEncode [(ascii "username", user), (ascii "password", pass)])) true with
  | (.error e, w1) => (.error e, w1)
  | (.panic, w1) => (.panic, w1)
  | (.ok (_, none), w1) => (.panic, w1)
  | (.ok (_, some res), w1) => (.ok res, w1)

/-- Go `login`: the challenge call with password `seeksalthash`, the derivation, the second
call, and the storing of the challenge response. -/
def client.login {σ : Type} (env : Env σ) (c : client) (w : σ) (user pass : Bytes) :
    Result σ Unit :=
  match c.callLogin env w user (ascii "seeksalthash") with
  | (.error e, w1) => (.error (.wrap "calling login to seek salt hash" e), c, w1)
  | (.panic, w1) => (.panic, c, w1)
  | (.ok res, w1) =>
    match c.callLogin env w1 user (DefaultDerivePasswordWebUI pass res.Salt res.SaltWebUI) with
    | (.error e, w2) => (.error e, c, w2)
    | (.panic, w2) => (.panic, c, w2)
    | (.ok _, w2) => c.storeLoginResponse env w2 (some res)

/-- Go `Logout`. -/
def client.Logout {σ : Type} (env : Env σ) (c : client) (w : σ) : Result σ Unit :=
  match c.doAndDecode env w (ascii "POST") (ascii "/api/v1/session/logout") none false with
  | (.error e, w1) => (.error e, c, w1)
  | (.panic, w1) => (.panic, c, w1)
  | (.ok _, w1) => c.storeLoginResponse env w1 none

/-- The buffer of `length` bytes that `rand.Read` has filled from the bytes `bs`. -/
def fillBuffer (length : Nat) (bs : Bytes) : Bytes :=
  (List.range length).map fun i => bs.getD i 0 % 256

/-- Go `defaultNewPasswordChangeRequestBody`: three reads of the random source, then
`newPasswordChangeRequestBody`. -/
def defaultNewPasswordChangeRequestBody {σ : Type} (env : Env σ) (w : σ)
    (newUser oldPass newPass oldPassSalt : Bytes) : Outcome Bytes × σ :=
  match env.randRead w 22 with
  | (.error e, w1) => (.error (.wrap "generate 22 bytes of random base 62" e), w1)
  | (.ok r1, w1) =>
    match env.randRead w1 16 with
    | (.error e, w2) => (.error (.wrap "generate 16 bytes for AES IV" e), w2)
    | (.ok r2, w2) =>
      match env.randRead w2 8 with
      | (.error e, w3) => (.error (.wrap "generate 8 bytes for new pass salt" e), w3)
      | (.ok r3, w3) =>
        (newPasswordChangeRequestBody newUser oldPass newPass oldPassSalt
          (toBase62 (fillBuffer 22 r1)) (fillBuffer 16 r2) (fillBuffer 8 r3), w3)

/-- Go `callSetAuth`. -/
def client.callSetAuth {σ : Type} (env : Env σ) (c : client) (w : σ)
    (newUser newPass oldPass loginSalt : Bytes) : Outcome Unit × σ :=
  match defaultNewPasswordChangeRequestBody env w newUser oldPass newPass loginSalt with
  | (.error e, w1) => (.error (.wrap "generate password change body" e), w1)
  | (.panic, w1) => (.panic, w1)
  | (.ok body, w1) =>
    match c.doAndDecode env w1 (ascii "POST") (ascii "/api/v1/changepassword") (some body)
        true with
    | (.error e, w2) => (.error (.wrap "call change password" e), w2)
    | (.panic, w2) => (.panic, w2)
    | (.ok _, w2) => (.ok (), w2)

/-- Go `SetAuth`. Reading `loginRes.Salt` through a nil pointer panics. -/
def client.SetAuth {σ : Type} (env : Env σ) (c : client) (w : σ) (user pass : Bytes) :
    Result σ Unit :=
  match c.login env w c.Username c.Password with
  | (.error e, c1, w1) => (.error e, c1, w1)
  | (.panic, c1, w1) => (.panic, c1, w1)
  | (.ok _, c1, w1) =>
    match c1.loadLoginResponse env w1 with
    | (.error e, c2, w2) => (.error e, c2, w2)
    | (.panic, c2, w2) => (.panic, c2, w2)
    | (.ok none, c2, w2) => (.panic, c2, w2)
    | (.ok (some loginRes), c2, w2) =>
      match c2.callSetAuth env w2 user pass c2.Password loginRes.Salt with
      | (.error e, w3) => (.error e, c2, w3)
      | (.panic, w3) => (.panic, c2, w3)
      | (.ok _, w3) => (.ok (), { c2 with Username := user, Password := pass }, w3)

/-- Go `Login`. -/
def client.Login {σ : Type} (env : Env σ) (c : client) (w : σ) : Result σ Unit :=
  if c.TryDefaultAuthFirst then
    match c.login env w c.DefaultUsername c.DefaultPassword with
    | (.panic, c1, w1) => (.panic, c1, w1)
    | (.error _, c1, w1) => c1.login env w1 c1.Username c1.Password
    | (.ok _, c1, w1) =>
      if !c1.SetAuthIfDefault then (.ok (), c1, w1)
      else
        match c1.SetAuth env w1 c1.Username c1.Password with
        | (.panic, c2, w2) => (.panic, c2, w2)
        | (.error e, c2, w2) => (.error (.wrap "setting auth after default login" e), c2, w2)
        | (.ok _, c2, w2) =>
          match c2.Logout env w2 with
          | (.panic, c3, w3) => (.panic, c3, w3)
          | (.error e, c3, w3) =>
            (.error (.wrap "logging out after default login" e), c3, w3)
          | (.ok _, c3, w3) => c3.login env w3 c3.Username c3.Password
  else c.login env w c.Username c.Password

/-! ## The PBKDF2 loop on words

The inner loop of `pbkdf2.Key` applies the PRF to 32-byte digests. On the chaining words the
digest bytes need not be formed: a 32-byte message written after one absorbed block fills a
single block, its eight words followed by the padding words. -/

/-- The eight words of a chaining value, in digest order. -/
def SHA256State.words (s : SHA256State) : List Nat := [s.a, s.b, s.c, s.d, s.e, s.f, s.g, s.h]

/-- Words 8 to 15 of the block of a 32-byte message written after one absorbed block: the
padding byte `0x80`, zeros, and the bit length `8 * (64 + 32) = 768`. -/
def digestBlockTail : List Nat := [2147483648, 0, 0, 0, 0, 0, 0, 768]

/-- Go `hmacSum` on the words of a 32-byte message. -/
def hmacSumWords (p : HMACState) (u : SHA256State) : SHA256State :=
  sha256Compress p.outer
    ((sha256Compress p.inner (u.words ++ digestBlockTail)).words ++ digestBlockTail)

/-- Word-wise exclusive or. -/
def xorState (t u : SHA256State) : SHA256State :=
  ⟨Nat.xor t.a u.a, Nat.xor t.b u.b, Nat.xor t.c u.c, Nat.xor t.d u.d,
    Nat.xor t.e u.e, Nat.xor t.f u.f, Nat.xor t.g u.g, Nat.xor t.h u.h⟩

/-- The loop of `pbkdf2Loop` on words, `n` iterations from `(U, T)`, giving the final
`(U, T)`. -/
def pbkdf2LoopWords (prf : HMACState) : Nat → SHA256State × SHA256State →
    SHA256State × SHA256State
  | 0, ut => ut
  | n + 1, ut =>
    pbkdf2LoopWords prf n (hmacSumWords prf ut.1, xorState ut.2 (hmacSumWords prf ut.1))

/-- Every word of the chaining value is a 32-bit word. -/
def SHA256State.wellFormed (s : SHA256State) : Prop := ∀ x ∈ s.words, x < 4294967296

instance (s : SHA256State) : Decidable s.wellFormed := by
  unfold SHA256State.wellFormed
  infer_instance

/-! ## Evaluation forms

The same loop in a form whose closed instances reduce quickly: recursors in place of pattern
matching, the words as separate arguments, the round functions written out. The forms are
proved equal to the definitions above and serve only to replay known vectors. -/

/-- The recursion of `sha256Rounds` on separate working variables. -/
def sha256RoundsFast (ks : List Nat) :
    (a b c d e f g h w0 w1 w2 w3 w4 w5 w6 w7 w8 w9 w10 w11 w12 w13 w14 w15 : Nat) →
      SHA256State :=
  List.rec (fun a b c d e f g h _ _ _ _ _ _ _ _ _ _ _ _ _ _ _ _ => ⟨a, b, c, d, e, f, g, h⟩)
    (fun k _ ih a b c d e f g h w0 w1 w2 w3 w4 w5 w6 w7 w8 w9 w10 w11 w12 w13 w14 w15 =>
      ih
        (Nat.mod (Nat.add (Nat.add
            (Nat.add (Nat.add (Nat.add h
                (Nat.xor (Nat.xor (Nat.shiftRight (Nat.mul e 4294967297) 6)
                    (Nat.shiftRight (Nat.mul e 4294967297) 11))
                  (Nat.shiftRight (Nat.mul e 4294967297) 25)))
              (Nat.xor g (Nat.land e (Nat.xor f g)))) (Nat.add k w0))
            (Nat.xor (Nat.xor (Nat.shiftRight (Nat.mul a 4294967297) 2)
                (Nat.shiftRight (Nat.mul a 4294967297) 13))
              (Nat.shiftRight (Nat.mul a 4294967297) 22)))
          (Nat.lor (Nat.land a b) (Nat.land c (Nat.lor a b)))) 4294967296)
        a b c
        (Nat.mod (Nat.add d
            (Nat.add (Nat.add (Nat.add h
                (Nat.xor (Nat.xor (Nat.shiftRight (Nat.mul e 4294967297) 6)
                    (Nat.shiftRight (Nat.mul e 4294967297) 11))
                  (Nat.shiftRight (Nat.mul e 4294967297) 25)))
              (Nat.xor g (Nat.land e (Nat.xor f g)))) (Nat.add k w0))) 4294967296)
        e f g w1 w2 w3 w4 w5 w6 w7 w8 w9 w10 w11 w12 w13 w14 w15
        (Nat.mod (Nat.add (Nat.add (Nat.add
            (Nat.xor (Nat.xor (Nat.shiftRight (Nat.mul w14 4294967297) 17)
                (Nat.shiftRight (Nat.mul w14 4294967297) 19))
              (Nat.shiftRight w14 10)) w9)
            (Nat.xor (Nat.xor (Nat.shiftRight (Nat.mul w1 4294967297) 7)
                (Nat.shiftRight (Nat.mul w1 4294967297) 18))
              (Nat.shiftRight w1 3))) w0) 4294967296))
    ks

/-- The compression, on a chaining value given by its words, of the block made of the words
`m0 .. m7` and `digestBlockTail`; the words of the result are handed to `k`. -/
def compressDigestFast {α : Type} (s0 s1 s2 s3 s4 s5 s6 s7 m0 m1 m2 m3 m4 m5 m6 m7 : Nat)
    (k : (a b c d e f g h : Nat) → α) : α :=
  SHA256State.casesOn (motive := fun _ => α)
    (sha256RoundsFast sha256K s0 s1 s2 s3 s4 s5 s6 s7 m0 m1 m2 m3 m4 m5 m6 m7
      2147483648 0 0 0 0 0 0 768)
    (fun a b c d e f g h =>
      k (Nat.mod (Nat.add s0 a) 4294967296) (Nat.mod (Nat.add s1 b) 4294967296)
        (Nat.mod (Nat.add s2 c) 4294967296) (Nat.mod (Nat.add s3 d) 4294967296)
        (Nat.mod (Nat.add s4 e) 4294967296) (Nat.mod (Nat.add s5 f) 4294967296)
        (Nat.mod (Nat.add s6 g) 4294967296) (Nat.mod (Nat.add s7 h) 4294967296))

/-- The loop of `pbkdf2LoopWords` with the two PRF states and the pair `(U, T)` given by
their words. -/
def pbkdf2LoopFast (i0 i1 i2 i3 i4 i5 i6 i7 o0 o1 o2 o3 o4 o5 o6 o7 : Nat) (n : Nat) :
    (u0 u1 u2 u3 u4 u5 u6 u7 t0 t1 t2 t3 t4 t5 t6 t7 : Nat) → SHA256State × SHA256State :=
  Nat.rec
    (fun u0 u1 u2 u3 u4 u5 u6 u7 t0 t1 t2 t3 t4 t5 t6 t7 =>
      (⟨u0, u1, u2, u3, u4, u5, u6, u7⟩, ⟨t0, t1, t2, t3, t4, t5, t6, t7⟩))
    (fun _ ih u0 u1 u2 u3 u4 u5 u6 u7 t0 t1 t2 t3 t4 t5 t6 t7 =>
      compressDigestFast i0 i1 i2 i3 i4 i5 i6 i7 u0 u1 u2 u3 u4 u5 u6 u7
        fun a b c d e f g h =>
          compressDigestFast o0 o1 o2 o3 o4 o5 o6 o7 a b c d e f g h
            fun a b c d e f g h =>
              ih a b c d e f g h (Nat.xor t0 a) (Nat.xor t1 b) (Nat.xor t2 c) (Nat.xor t3 d)
                (Nat.xor t4 e) (Nat.xor t5 f) (Nat.xor t6 g) (Nat.xor t7 h))
    n

/-! ## crypto_test.go: test data -/

/-- Go `sjclWordsToBytes`: the big-endian bytes of `int32` words, each taken as a `uint32`. -/
def sjclWordsToBytes (src : List Int) : Bytes :=
  src.flatMap fun v => putUint32BE (v % 4294967296).toNat

/-- The IV of `TestNewPasswordChangeRequestBody`. -/
def testAesIV : Bytes := sjclWordsToBytes [1481851925, 189938307, 761893355, -287649142]

/-- The salt `saltBeforeEncrypt` of `TestNewPasswordChangeRequestBody`. -/
def testNewPassSalt : Bytes := sjclWordsToBytes [-1762985038, -1301754799]

/-- The random text `rndCrap` of `TestNewPasswordChangeRequestBody`, 21 bytes long. -/
def testRndBase62 : Bytes := ascii "N6F3cd9EK2XGas4VEakhP"

/-! ## Stub servers for the concrete scenarios -/

/-- The body `{"error":"ok","message":"","data":{},"salt":"none","saltwebui":"none"}`. -/
def okBody : Bytes :=
  ascii "\x7b\"error\":\"ok\",\"message\":\"\",\"data\":\x7b\x7d,\"salt\":\"none\",\"saltwebui\":\"none\"\x7d"

/-- The body `{"error":"fail","message":"denied","data":{}}`. -/
def failBody : Bytes :=
  ascii "\x7b\"error\":\"fail\",\"message\":\"denied\",\"data\":\x7b\x7d\x7d"

/-- What `json.Unmarshal` yields on the two stub bodies: the string members unquoted, and
each `json.RawMessage` member holding the raw text of its value, which for the JSON string
`"none"` is the six bytes of the quoted text. Any other body counts as undecodable. -/
def stubUnmarshal (b : Bytes) : Except Err loginResponse :=
  if b = okBody then
    .ok { Error := ascii "ok", Message := [], Data := ascii "\x7b\x7d",
          Salt := ascii "\"none\"", SaltWebUI := ascii "\"none\"" }
  else if b = failBody then
    .ok { Error := ascii "fail", Message := ascii "denied", Data := ascii "\x7b\x7d",
          Salt := [], SaltWebUI := [] }
  else .error (.lib 1)

/-- A stub environment. The world is the list of requests sent so far; the transport answers
the request number `i` (from 0) with `script i`; lock attempts succeed; the random source
yields zero bytes; every URL is accepted. -/
def stubEnv (script : Nat → Except Err Bytes) : Env (List Request) where
  Do := fun w req => (script w.length, w ++ [req])
  randRead := fun w n => (.ok (List.replicate n 0), w)
  tryLock := fun w => (true, w)
  newRequestErr := fun _ => none
  unmarshal := stubUnmarshal
  unicodeLower := fun s => s

/-- A server that answers every request with `okBody`. -/
def okServer : Env (List Request) := stubEnv fun _ => .ok okBody

/-- A server that answers the first two requests with `okBody` and every later one with
`failBody`. -/
def twoThenFailServer : Env (List Request) :=
  stubEnv fun i => if i < 2 then .ok okBody else .ok failBody

/-- A server that answers every request with the body `null`. -/
def nullServer : Env (List Request) := stubEnv fun _ => .ok (ascii "null")

/-- A server that answers every request with `failBody`. -/
def failServer : Env (List Request) := stubEnv fun _ => .ok failBody

/-- A client configured with credentials of its own, with the two default-credential flags
as given. -/
def sampleClient (tryDefaultAuthFirst setAuthIfDefault : Bool) : client where
  BaseURL := ascii "https://192.168.0.1"
  UserAgent := ascii "test"
  Username := ascii "admin"
  Password := ascii "secret"
  DefaultUsername := ascii "custadmin"
  DefaultPassword := ascii "cga4233"
  TryDefaultAuthFirst := tryDefaultAuthFirst
  SetAuthIfDefault := setAuthIfDefault
  TLSVerify := false
  loginResponse := none

/-- The sample client after a login: it holds a stored login response. -/
def storedClient : client :=
  { sampleClient true false with
    loginResponse := some { Error := ascii "ok", Message := [], Data := ascii "\x7b\x7d",
                            Salt := ascii "\"none\"", SaltWebUI := ascii "\"none\"" } }

/-! # Theorems -/

/-! ## Password derivation -/

theorem ascii_none : ascii "none" = noneStr := by decide

/-- C1. Cleartext-mode identity law: when the salt is the sentinel `"none"`,
`DefaultDerivePasswordWebUI` returns the password unchanged, whatever the WebUI salt. -/
theorem derive_sentinel_identity (p w : Bytes) :
    DefaultDerivePasswordWebUI p (ascii "none") w = p := by
  simp [DefaultDerivePasswordWebUI, derivePasswordWebUI, ascii_none]

/-! ## Lengths and byte ranges of the derived keys -/

theorem length_bytesBE (n x : Nat) : (bytesBE n x).length = n := by
  induction n with
  | zero => rfl
  | succ n ih => simp [bytesBE, ih]

theorem bytesBE_lt (n x : Nat) : ∀ b ∈ bytesBE n x, b < 256 := by
  induction n with
  | zero => simp [bytesBE]
  | succ n ih =>
    intro b hb
    simp only [bytesBE, List.mem_cons] at hb
    rcases hb with rfl | hb
    · exact Nat.mod_lt _ (by decide)
    · exact ih b hb

theorem length_sha256Digest (s : SHA256State) : (sha256Digest s).length = 32 := by
  simp [sha256Digest, length_bytesBE]

theorem sha256Digest_lt (s : SHA256State) : ∀ b ∈ sha256Digest s, b < 256 := by
  intro b hb
  simp only [sha256Digest, List.mem_append] at hb
  rcases hb with ((((((hb | hb) | hb) | hb) | hb) | hb) | hb) | hb <;> exact bytesBE_lt _ _ b hb

theorem length_hmacSum (p : HMACState) (msg : Bytes) : (hmacSum p msg).length = 32 :=
  length_sha256Digest _

theorem hmacSum_lt (p : HMACState) (msg : Bytes) : ∀ b ∈ hmacSum p msg, b < 256 :=
  sha256Digest_lt _

theorem xorBytes_lt (t u : Bytes) (ht : ∀ b ∈ t, b < 256) (hu : ∀ b ∈ u, b < 256) :
    ∀ b ∈ xorBytes t u, b < 256 := by
  induction t generalizing u with
  | nil => simp [xorBytes]
  | cons x t ih =>
    cases u with
    | nil => simp [xorBytes]
    | cons y u =>
      intro b hb
      simp only [xorBytes, List.zipWith_cons_cons, List.mem_cons] at hb
      rcases hb with rfl | hb
      · exact Nat.xor_lt_two_pow (n := 8) (ht x (by simp)) (hu y (by simp))
      · exact ih u (fun b hb => ht b (by simp [hb])) (fun b hb => hu b (by simp [hb])) b hb

theorem pbkdf2Loop_spec (prf : HMACState) (n : Nat) (u t : Bytes) (ht : t.length = 32)
    (hlt : ∀ b ∈ t, b < 256) :
    (pbkdf2Loop prf n u t).length = 32 ∧ ∀ b ∈ pbkdf2Loop prf n u t, b < 256 := by
  induction n generalizing u t with
  | zero => exact ⟨ht, hlt⟩
  | succ n ih =>
    simp only [pbkdf2Loop]
    apply ih
    · simp [xorBytes, ht, length_hmacSum]
    · exact xorBytes_lt _ _ hlt (hmacSum_lt _ _)

theorem pbkdf2Block_spec (prf : HMACState) (salt : Bytes) (iter block : Nat) :
    (pbkdf2Block prf salt iter block).length = 32 ∧
      ∀ b ∈ pbkdf2Block prf salt iter block, b < 256 :=
  pbkdf2Loop_spec prf _ _ _ (length_hmacSum _ _) (hmacSum_lt _ _)

theorem length_flatMap_const {α : Type} (l : List α) (f : α → Bytes) (k : Nat)
    (h : ∀ a, (f a).length = k) : (l.flatMap f).length = l.length * k := by
  induction l with
  | nil => simp
  | cons a l ih => simp [List.flatMap_cons, h, ih, Nat.succ_mul, Nat.add_comm]

/-- The derived key has exactly `keyLen` bytes. -/
theorem length_pbkdf2Key (password salt : Bytes) (iter keyLen : Nat) :
    (pbkdf2Key password salt iter keyLen).length = keyLen := by
  unfold pbkdf2Key
  rw [List.length_take, length_flatMap_const _ _ 32 (fun i => (pbkdf2Block_spec _ _ _ _).1)]
  simp only [List.length_range]
  omega

/-- Every byte of the derived key is below 256. -/
theorem pbkdf2Key_lt (password salt : Bytes) (iter keyLen : Nat) :
    ∀ b ∈ pbkdf2Key password salt iter keyLen, b < 256 := by
  intro b hb
  unfold pbkdf2Key at hb
  have hb2 := List.mem_of_mem_take hb
  rw [List.mem_flatMap] at hb2
  obtain ⟨i, _, hi⟩ := hb2
  exact (pbkdf2Block_spec _ _ _ _).2 b hi

theorem length_hexEncode (v : Bytes) : (hexEncode v).length = 2 * v.length := by
  unfold hexEncode
  rw [length_flatMap_const _ _ 2 (fun a => by simp [hexEncodeByte])]
  omega

theorem hexEncodeByte_mem (v : Nat) (hv : v < 256) : ∀ c ∈ hexEncodeByte v, c ∈ hextable := by
  have h1 : v >>> 4 < 16 := by rw [Nat.shiftRight_eq_div_pow]; omega
  have h2 : v &&& 15 < 16 := by
    rw [Nat.and_pow_two_sub_one_eq_mod v 4]; exact Nat.mod_lt _ (by decide)
  intro c hc
  simp only [hexEncodeByte, List.mem_cons, List.mem_singleton, List.not_mem_nil, or_false] at hc
  rcases hc with rfl | rfl
  · generalize v >>> 4 = k at h1
    interval_cases k <;> decide
  · generalize v &&& 15 = k at h2
    interval_cases k <;> decide

/-- The hex text of bytes consists of the digits `0-9a-f`. -/
theorem hexEncode_mem (v : Bytes) (hv : ∀ b ∈ v, b < 256) : ∀ c ∈ hexEncode v, c ∈ hextable := by
  intro c hc
  unfold hexEncode at hc
  rw [List.mem_flatMap] at hc
  obtain ⟨b, hb, hcb⟩ := hc
  exact hexEncodeByte_mem b (hv b hb) c hcb

/-- One round `defaultDoPBKDF2` yields 32 lower-case hex digits. -/
theorem defaultDoPBKDF2_spec (password salt : Bytes) :
    (defaultDoPBKDF2 password salt).length = 32 ∧
      ∀ c ∈ defaultDoPBKDF2 password salt, c ∈ hextable := by
  constructor
  · simp [defaultDoPBKDF2, doPBKDF2, length_hexEncode, length_pbkdf2Key,
      defaultPBKDF2keyLenBytes]
  · exact hexEncode_mem _ (pbkdf2Key_lt _ _ _ _)

/-! ## Padding -/

/-- The padding in closed form: sixteen copies of the byte `16 - len mod 16`. -/
theorem addPKCS5Padding_eq (pt : Bytes) :
    addPKCS5Padding pt = pt ++ List.replicate 16 (16 - pt.length % 16) := by
  have hand : pt.length &&& 15 = pt.length % 16 := Nat.and_pow_two_sub_one_eq_mod pt.length 4
  have hlt : pt.length % 16 < 16 := Nat.mod_lt _ (by decide)
  unfold addPKCS5Padding putUint32BE
  rw [hand]
  generalize pt.length % 16 = k at hlt
  interval_cases k <;> simp [List.replicate]

theorem length_addPKCS5Padding (pt : Bytes) : (addPKCS5Padding pt).length = pt.length + 16 := by
  simp [addPKCS5Padding_eq]

/-- C3, as stated, fails: a one-byte plaintext is padded to 17 bytes, which is neither
`1 + (16 - 1 mod 16) = 16` nor a multiple of 16. -/
theorem addPKCS5Padding_length_counterexample :
    (addPKCS5Padding [0]).length ≠ [0].length + (16 - [0].length % 16) ∧
      (addPKCS5Padding [0]).length % 16 ≠ 0 := by
  decide

/-- C3, amended. The padded text is strictly longer than every plaintext, and for a plaintext
whose length `L` is a multiple of 16 (the requirement documented on `aes128cbc`) it has length
`L + (16 - L mod 16)`, a multiple of 16. -/
theorem addPKCS5Padding_length (pt : Bytes) :
    pt.length < (addPKCS5Padding pt).length ∧
      (pt.length % 16 = 0 →
        (addPKCS5Padding pt).length = pt.length + (16 - pt.length % 16) ∧
          (addPKCS5Padding pt).length % 16 = 0) := by
  rw [length_addPKCS5Padding]
  refine ⟨by omega, fun h => ?_⟩
  omega

theorem addPKCS5Padding_length_witness :
    (List.replicate 32 48).length % 16 = 0 ∧
      (addPKCS5Padding (List.replicate 32 48)).length =
        (List.replicate 32 48).length + (16 - (List.replicate 32 48).length % 16) ∧
      (addPKCS5Padding (List.replicate 32 48)).length % 16 = 0 :=
  ⟨by decide, (addPKCS5Padding_length (List.replicate 32 48)).2 (by decide)⟩

/-- C4. Padding content: the padded text starts with the plaintext, every appended byte is
`16 - (L mod 16)`, and for `L` a multiple of 16 the appended bytes are sixteen bytes `0x10`. -/
theorem addPKCS5Padding_content (pt : Bytes) :
    (addPKCS5Padding pt).take pt.length = pt ∧
      (∀ b ∈ (addPKCS5Padding pt).drop pt.length, b = 16 - pt.length % 16) ∧
      (pt.length % 16 = 0 → (addPKCS5Padding pt).drop pt.length = List.replicate 16 16) := by
  rw [addPKCS5Padding_eq, List.take_left, List.drop_left]
  refine ⟨rfl, fun b hb => List.eq_of_mem_replicate hb, fun h => ?_⟩
  rw [h]

theorem addPKCS5Padding_content_witness :
    (List.replicate 32 48).length % 16 = 0 ∧
      (addPKCS5Padding (List.replicate 32 48)).drop (List.replicate 32 48).length =
        List.replicate 16 16 :=
  ⟨by decide, (addPKCS5Padding_content (List.replicate 32 48)).2.2 (by decide)⟩

/-! ## The change-password body -/

theorem aesNewCipher_of_length {key : Bytes} (h : key.length = 16) :
    aesNewCipher key = some (aesExpandKey key) := by
  simp [aesNewCipher, h]

/-- With a 16-byte key, a 16-byte IV and a block-aligned plaintext `aes128cbc` returns the
CBC encryption of the plaintext followed by one block of bytes `0x10`. -/
theorem aes128cbc_ok {key iv plaintext : Bytes} (hk : key.length = 16) (hiv : iv.length = 16)
    (hp : plaintext.length % 16 = 0) :
    aes128cbc key iv plaintext =
      .ok (cbcCryptBlocks (aesExpandKey key) (plaintext.length / 16 + 1) iv
        (plaintext ++ List.replicate 16 16)) := by
  have hpad : addPKCS5Padding plaintext = plaintext ++ List.replicate 16 16 := by
    rw [addPKCS5Padding_eq, hp]
  have hlen : (plaintext ++ List.replicate 16 16).length = plaintext.length + 16 := by simp
  have h1 : (plaintext.length + 16) % 16 = 0 := by omega
  have h2 : (plaintext.length + 16) / 16 = plaintext.length / 16 + 1 := by omega
  simp only [aes128cbc, aesNewCipher_of_length hk, hiv, hpad, hlen, h1, h2, ne_eq,
    not_true_eq_false, if_false]

/-- With an IV that is not 16 bytes long `aes128cbc` panics, whatever the 16-byte key. -/
theorem aes128cbc_panic {key iv plaintext : Bytes} (hk : key.length = 16)
    (hiv : iv.length ≠ 16) : aes128cbc key iv plaintext = .panic := by
  simp [aes128cbc, aesNewCipher_of_length hk, hiv]

theorem sortByKey_body (a b c d : Bytes) :
    sortByKey [(ascii "login_salt", a), (ascii "login_salt3", b), (ascii "login_password", c),
      (ascii "myusername", d)] =
    [(ascii "login_password", c), (ascii "login_salt", a), (ascii "login_salt3", b),
      (ascii "myusername", d)] := by
  have h1 : bytesLess (ascii "myusername") (ascii "login_password") = false := by decide
  have h2 : bytesLess (ascii "myusername") (ascii "login_salt3") = false := by decide
  have h3 : bytesLess (ascii "login_password") (ascii "login_salt3") = true := by decide
  have h4 : bytesLess (ascii "myusername") (ascii "login_salt") = false := by decide
  have h5 : bytesLess (ascii "login_password") (ascii "login_salt") = true := by decide
  have h6 : bytesLess (ascii "login_salt3") (ascii "login_salt") = false := by decide
  simp [sortByKey, insertByKey, h1, h2, h3, h4, h5, h6]

/-- The body in general: for a random text of at least 11 bytes and a 16-byte IV the
builder returns the form encoding of the four entries, the envelope holding the CBC
encryption of `hash1prime` and one block of padding. -/
theorem newPasswordChangeRequestBody_ok (newUser oldPass newPass oldPassSalt rndBase62 aesIV
    newPassSalt : Bytes) (hr : 11 ≤ rndBase62.length) (hiv : aesIV.length = 16) :
    newPasswordChangeRequestBody newUser oldPass newPass oldPassSalt rndBase62 aesIV
        newPassSalt =
      .ok (urlValuesEncode
        [(ascii "login_salt", rndBase62.take 11),
         (ascii "login_salt3", rndBase62.drop 11),
         (ascii "login_password",
           jsonObject
             [(ascii "cipher", .str (ascii "aes")), (ascii "mode", .str (ascii "cbc")),
              (ascii "iv", .str (base64Encode aesIV)),
              (ascii "salt", .str (base64Encode newPassSalt)),
              (ascii "adata", .str []),
              (ascii "ct", .str (base64Encode
                (cbcCryptBlocks
                  (aesExpandKey
                    (pbkdf2Key
                      (hexEncode (pbkdf2Key (hexEncode (pbkdf2Key oldPass oldPassSalt 1000 16))
                        (rndBase62.drop 11) 1000 16))
                      newPassSalt 1000 16))
                  3 aesIV
                  (hexEncode (pbkdf2Key newPass (rndBase62.take 11) 1000 16) ++
                    List.replicate 16 16)))),
              (ascii "v", .int 1), (ascii "iter", .int 1000), (ascii "ks", .int 128),
              (ascii "ts", .int 64)] ++ [10]),
         (ascii "myusername", newUser)]) := by
  have hlen : (defaultDoPBKDF2 newPass (rndBase62.take 11)).length = 32 :=
    (defaultDoPBKDF2_spec _ _).1
  have hnot : ¬ rndBase62.length < 11 := by omega
  unfold newPasswordChangeRequestBody
  rw [if_neg hnot, aes128cbc_ok (length_pbkdf2Key _ _ _ _) hiv (by rw [hlen]), hlen]
  simp only [defaultDoPBKDF2, doPBKDF2, defaultPBKDF2iter, defaultPBKDF2keyLenBytes,
    jsonEncodeSjclData, sjclData.members]

/-- With an IV that is not 16 bytes long the builder panics and returns no body. -/
theorem newPasswordChangeRequestBody_panic (newUser oldPass newPass oldPassSalt rndBase62 aesIV
    newPassSalt : Bytes) (hr : 11 ≤ rndBase62.length) (hiv : aesIV.length ≠ 16) :
    newPasswordChangeRequestBody newUser oldPass newPass oldPassSalt rndBase62 aesIV
        newPassSalt = .panic := by
  have hnot : ¬ rndBase62.length < 11 := by omega
  unfold newPasswordChangeRequestBody
  rw [if_neg hnot, aes128cbc_panic (length_pbkdf2Key _ _ _ _) hiv]

/-! ## The session methods -/

/-- A decoding `doAndDecode` ends in an error, or panics on a body `null` that the transport
returned, or ends with a decoded, validated response taken from a successful transport
call. -/
theorem doAndDecode_decode_cases {σ : Type} (env : Env σ) (c : client) (w : σ)
    (method endpoint : Bytes) (body : Option Bytes) :
    (∃ e w1, c.doAndDecode env w method endpoint body true = (.error e, w1)) ∨
    (∃ resBytes w1, c.doAndDecode env w method endpoint body true = (.panic, w1) ∧
      env.Do w ⟨method, c.BaseURL ++ endpoint, body⟩ = (.ok resBytes, w1) ∧
      jsonIsNull resBytes = true) ∨
    (∃ resBytes res w1,
      c.doAndDecode env w method endpoint body true = (.ok (resBytes, some res), w1) ∧
      env.Do w ⟨method, c.BaseURL ++ endpoint, body⟩ = (.ok resBytes, w1) ∧
      env.unmarshal resBytes = .ok res ∧
      res.toresponse.Validate env.unicodeLower = none) := by
  unfold client.doAndDecode
  cases hreq : env.newRequestErr (c.BaseURL ++ endpoint) with
  | some e => exact Or.inl ⟨_, _, rfl⟩
  | none =>
    rcases hdo : env.Do w ⟨method, c.BaseURL ++ endpoint, body⟩ with ⟨r, w1⟩
    cases r with
    | error e => exact Or.inl ⟨_, _, rfl⟩
    | ok resBytes =>
      cases hnull : jsonIsNull resBytes with
      | true => simp only [hnull, if_true]; exact Or.inr (Or.inl ⟨_, _, rfl, rfl, hnull⟩)
      | false =>
        cases hum : env.unmarshal resBytes with
        | error e =>
          simp only [hnull, hum, if_true, Bool.false_eq_true, if_false]
          exact Or.inl ⟨_, _, rfl⟩
        | ok res =>
          cases hv : res.toresponse.Validate env.unicodeLower with
          | some e =>
            simp only [hnull, hum, hv, if_true, Bool.false_eq_true, if_false]
            exact Or.inl ⟨_, _, rfl⟩
          | none =>
            simp only [hnull, hum, hv, if_true, Bool.false_eq_true, if_false]
            exact Or.inr (Or.inr ⟨_, _, _, rfl, rfl, hum, hv⟩)

/-- Go `callLogin` ends in an error, in a panic, or with a validated response. -/
theorem callLogin_cases {σ : Type} (env : Env σ) (c : client) (w : σ) (user pass : Bytes) :
    (∃ e w1, c.callLogin env w user pass = (.error e, w1)) ∨
    (∃ w1, c.callLogin env w user pass = (.panic, w1)) ∨
    (∃ res w1, c.callLogin env w user pass = (.ok res, w1) ∧
      res.toresponse.Validate env.unicodeLower = none) := by
  unfold client.callLogin
  rcases doAndDecode_decode_cases env c w (ascii "POST") (ascii "/api/v1/session/login")
      (some (urlValuesEncode [(ascii "username", user), (ascii "password", pass)])) with
    ⟨e, w1, h⟩ | ⟨rb, w1, h, _, _⟩ | ⟨rb, res, w1, h, _, _, hv⟩
  · rw [h]; exact Or.inl ⟨_, _, rfl⟩
  · rw [h]; exact Or.inr (Or.inl ⟨_, rfl⟩)
  · rw [h]; exact Or.inr (Or.inr ⟨_, _, rfl, hv⟩)

/-- Go `storeLoginResponse` either stores the response or fails on the lock and changes
nothing. -/
theorem storeLoginResponse_cases {σ : Type} (env : Env σ) (c : client) (w : σ)
    (res : Option loginResponse) :
    c.storeLoginResponse env w res = (.ok (), { c with loginResponse := res }, (env.tryLock w).2) ∨
    ∃ e, c.storeLoginResponse env w res = (.error e, c, (env.tryLock w).2) := by
  unfold client.storeLoginResponse
  cases (env.tryLock w).1
  · exact Or.inr ⟨.new "could not acquire lock to store login response", by simp⟩
  · exact Or.inl (by simp)

/-- Go `login` ends in an error or in a panic with the client unchanged, or succeeds having
stored a response. -/
theorem login_cases {σ : Type} (env : Env σ) (c : client) (w : σ) (user pass : Bytes) :
    (∃ e w1, c.login env w user pass = (.error e, c, w1)) ∨
    (∃ w1, c.login env w user pass = (.panic, c, w1)) ∨
    (∃ res w1, c.login env w user pass = (.ok (), { c with loginResponse := some res }, w1)) := by
  unfold client.login
  rcases callLogin_cases env c w user (ascii "seeksalthash") with
    ⟨e, w1, h⟩ | ⟨w1, h⟩ | ⟨res, w1, h, _⟩
  · rw [h]; exact Or.inl ⟨_, _, rfl⟩
  · rw [h]; exact Or.inr (Or.inl ⟨_, rfl⟩)
  · rw [h]
    rcases callLogin_cases env c w1 user
        (DefaultDerivePasswordWebUI pass res.Salt res.SaltWebUI) with
      ⟨e, w2, h2⟩ | ⟨w2, h2⟩ | ⟨res2, w2, h2, _⟩
    · simp only [h2]; exact Or.inl ⟨_, _, rfl⟩
    · simp only [h2]; exact Or.inr (Or.inl ⟨_, rfl⟩)
    · simp only [h2]
      rcases storeLoginResponse_cases env c w2 (some res) with h3 | ⟨e, h3⟩
      · rw [h3]; exact Or.inr (Or.inr ⟨_, _, rfl⟩)
      · rw [h3]; exact Or.inl ⟨_, _, rfl⟩

/-- Go `login` leaves the parameters of the client, the credentials among them, as they were. -/
theorem login_toParams {σ : Type} (env : Env σ) (c : client) (w : σ) (user pass : Bytes) :
    (c.login env w user pass).2.1.toParams = c.toParams := by
  rcases login_cases env c w user pass with ⟨e, w1, h⟩ | ⟨w1, h⟩ | ⟨res, w1, h⟩ <;> rw [h]

/-- A non-decoding `doAndDecode` succeeds exactly when the request is built and the transport
returns a response, whatever its body. -/
theorem doAndDecode_raw {σ : Type} (env : Env σ) (c : client) (w : σ)
    (method endpoint : Bytes) (body : Option Bytes) :
    (∃ e w1, c.doAndDecode env w method endpoint body false = (.error e, w1) ∧
      (env.newRequestErr (c.BaseURL ++ endpoint) ≠ none ∨
        ∃ e2, env.Do w ⟨method, c.BaseURL ++ endpoint, body⟩ = (.error e2, w1))) ∨
    (∃ resBytes w1, c.doAndDecode env w method endpoint body false = (.ok (resBytes, none), w1) ∧
      env.newRequestErr (c.BaseURL ++ endpoint) = none ∧
      env.Do w ⟨method, c.BaseURL ++ endpoint, body⟩ = (.ok resBytes, w1)) := by
  unfold client.doAndDecode
  cases hreq : env.newRequestErr (c.BaseURL ++ endpoint) with
  | some e => exact Or.inl ⟨_, _, rfl, Or.inl (by simp)⟩
  | none =>
    rcases hdo : env.Do w ⟨method, c.BaseURL ++ endpoint, body⟩ with ⟨r, w1⟩
    cases r with
    | error e => exact Or.inl ⟨_, _, rfl, Or.inr ⟨_, rfl⟩⟩
    | ok resBytes => exact Or.inr ⟨_, _, by simp, rfl, rfl⟩

/-- C9, as stated, fails: the server answers the logout request with error field `"fail"`,
a response that does not validate, and `Logout` still returns nil and clears the stored
login response. -/
theorem Logout_unconfirmed_counterexample :
    (storedClient.Logout failServer []).1 = .ok () ∧
    (storedClient.Logout failServer []).2.1.loginResponse = none ∧
    storedClient.loginResponse ≠ none ∧
    (failServer.Do [] ⟨ascii "POST", storedClient.BaseURL ++ ascii "/api/v1/session/logout",
      none⟩).1.toOption = some failBody ∧
    (failServer.unmarshal failBody).toOption.map
      (fun r => (r.toresponse.Validate failServer.unicodeLower).isSome) = some true := by
  decide

/-- C9, amended. `Logout` returns nil only if the request was built and the transport
returned a response, and then the stored login response is cleared; the response body is
neither decoded nor validated, so with the lock free every response is taken as confirmation.
If the transport fails, and whenever `Logout` returns an error, the client, its stored login
response included, is unchanged. -/
theorem Logout_spec {σ : Type} (env : Env σ) (c : client) (w : σ) :
    ((c.Logout env w).1 = .ok () →
      (c.Logout env w).2.1.loginResponse = none ∧
      env.newRequestErr (c.BaseURL ++ ascii "/api/v1/session/logout") = none ∧
      ∃ resBytes w1, env.Do w ⟨ascii "POST", c.BaseURL ++ ascii "/api/v1/session/logout", none⟩ =
        (.ok resBytes, w1)) ∧
    (∀ resBytes w1, env.newRequestErr (c.BaseURL ++ ascii "/api/v1/session/logout") = none →
      env.Do w ⟨ascii "POST", c.BaseURL ++ ascii "/api/v1/session/logout", none⟩ =
        (.ok resBytes, w1) →
      (env.tryLock w1).1 = true →
      c.Logout env w = (.ok (), { c with loginResponse := none }, (env.tryLock w1).2)) ∧
    (∀ e w1, env.Do w ⟨ascii "POST", c.BaseURL ++ ascii "/api/v1/session/logout", none⟩ =
        (.error e, w1) →
      ∃ e2, (c.Logout env w).1 = .error e2) ∧
    (∀ e, (c.Logout env w).1 = .error e → (c.Logout env w).2.1 = c) := by
  unfold client.Logout
  rcases doAndDecode_raw env c w (ascii "POST") (ascii "/api/v1/session/logout") none with
    ⟨e, w1, h, hcause⟩ | ⟨rb, w1, h, hreq, hdo⟩
  · rw [h]
    refine ⟨fun hok => by simp at hok, fun rb w2 hreq hdo _ => ?_, fun _ _ _ => ⟨e, rfl⟩,
      fun _ _ => rfl⟩
    rcases hcause with hne | ⟨e2, hdo2⟩
    · exact absurd hreq hne
    · rw [hdo] at hdo2; simp at hdo2
  · rw [h]
    simp only
    rcases storeLoginResponse_cases env c w1 none with h3 | ⟨e, h3⟩
    · rw [h3]
      refine ⟨fun _ => ⟨rfl, hreq, rb, w1, hdo⟩, fun rb2 w2 _ hdo2 _ => ?_,
        fun e w2 hdo2 => ?_, fun e he => by simp at he⟩
      · rw [hdo] at hdo2
        simp only [Prod.mk.injEq, Except.ok.injEq] at hdo2
        rw [← hdo2.2]
      · rw [hdo] at hdo2; simp at hdo2
    · rw [h3]
      refine ⟨fun hok => by simp at hok, fun rb2 w2 _ hdo2 hlock => ?_,
        fun e w2 hdo2 => ⟨_, rfl⟩, fun _ _ => rfl⟩
      rw [hdo] at hdo2
      simp only [Prod.mk.injEq, Except.ok.injEq] at hdo2
      rw [← hdo2.2] at hlock
      unfold client.storeLoginResponse at h3
      simp [hlock] at h3

theorem Logout_spec_witness :
    (storedClient.Logout okServer []).2.1.loginResponse = none ∧
    okServer.newRequestErr (storedClient.BaseURL ++ ascii "/api/v1/session/logout") = none ∧
    ∃ resBytes w1, okServer.Do []
      ⟨ascii "POST", storedClient.BaseURL ++ ascii "/api/v1/session/logout", none⟩ =
        (.ok resBytes, w1) :=
  (Logout_spec okServer storedClient []).1 (by decide)

/-- Go `Validate` passes exactly when the lower-cased `Error` field is `"ok"`. -/
theorem Validate_eq_none_iff (unicodeLower : Bytes → Bytes) (r : response) :
    r.Validate unicodeLower = none ↔ stringsToLower unicodeLower r.Error = ascii "ok" := by
  unfold response.Validate
  by_cases h : stringsToLower unicodeLower r.Error = ascii "ok" <;> simp [h]

theorem length_fillBuffer (n : Nat) (bs : Bytes) : (fillBuffer n bs).length = n := by
  simp [fillBuffer]

theorem length_toBase62 (p : Bytes) : (toBase62 p).length = p.length := by
  simp [toBase62]

/-- With the random material it draws itself the body builder cannot panic: it fails on the
random source or returns a body. -/
theorem defaultNewPasswordChangeRequestBody_cases {σ : Type} (env : Env σ) (w : σ)
    (newUser oldPass newPass oldPassSalt : Bytes) :
    (∃ e w1, defaultNewPasswordChangeRequestBody env w newUser oldPass newPass oldPassSalt =
      (.error e, w1)) ∨
    (∃ body w1, defaultNewPasswordChangeRequestBody env w newUser oldPass newPass oldPassSalt =
      (.ok body, w1)) := by
  unfold defaultNewPasswordChangeRequestBody
  rcases h1 : env.randRead w 22 with ⟨r1, w1⟩
  cases r1 with
  | error e => exact Or.inl ⟨_, _, rfl⟩
  | ok r1 =>
    dsimp only
    rcases h2 : env.randRead w1 16 with ⟨r2, w2⟩
    cases r2 with
    | error e => exact Or.inl ⟨_, _, rfl⟩
    | ok r2 =>
      dsimp only
      rcases h3 : env.randRead w2 8 with ⟨r3, w3⟩
      cases r3 with
      | error e => exact Or.inl ⟨_, _, rfl⟩
      | ok r3 =>
        right
        dsimp only
        rw [newPasswordChangeRequestBody_ok _ _ _ _ _ _ _
          (by rw [length_toBase62, length_fillBuffer]; decide) (length_fillBuffer 16 r2)]
        exact ⟨_, _, rfl⟩

/-- Go `callSetAuth` ends in an error, or panics on a change-password response `null`, or
ends with a change-password response that the transport returned and that validated. -/
theorem callSetAuth_cases {σ : Type} (env : Env σ) (c : client) (w : σ)
    (newUser newPass oldPass loginSalt : Bytes) :
    (∃ e w1, c.callSetAuth env w newUser newPass oldPass loginSalt = (.error e, w1)) ∨
    (∃ w3, c.callSetAuth env w newUser newPass oldPass loginSalt = (.panic, w3)) ∨
    (∃ w3, c.callSetAuth env w newUser newPass oldPass loginSalt = (.ok (), w3) ∧
      ∃ w1 body resBytes res,
        env.Do w1 ⟨ascii "POST", c.BaseURL ++ ascii "/api/v1/changepassword", some body⟩ =
          (.ok resBytes, w3) ∧
        env.unmarshal resBytes = .ok res ∧
        stringsToLower env.unicodeLower res.Error = ascii "ok") := by
  unfold client.callSetAuth
  rcases defaultNewPasswordChangeRequestBody_cases env w newUser oldPass newPass loginSalt with
    ⟨e, w1, h⟩ | ⟨body, w1, h⟩
  · rw [h]; exact Or.inl ⟨_, _, rfl⟩
  · rw [h]
    rcases doAndDecode_decode_cases env c w1 (ascii "POST") (ascii "/api/v1/changepassword")
        (some body) with ⟨e, w2, h2⟩ | ⟨rb, w2, h2, _, _⟩ | ⟨rb, res, w2, h2, hdo, hum, hv⟩
    · simp only [h2]; exact Or.inl ⟨_, _, rfl⟩
    · simp only [h2]; exact Or.inr (Or.inl ⟨_, rfl⟩)
    · simp only [h2]
      exact Or.inr (Or.inr
        ⟨_, rfl, w1, body, rb, res, hdo, hum, (Validate_eq_none_iff _ _).1 hv⟩)

/-- Go `SetAuth` ends in an error or in a panic with the parameters of the client as they
were, or succeeds with the new credentials after a validated change-password response. -/
theorem SetAuth_cases {σ : Type} (env : Env σ) (c : client) (w : σ) (user pass : Bytes) :
    (∃ e c1 w1, c.SetAuth env w user pass = (.error e, c1, w1) ∧ c1.toParams = c.toParams) ∨
    (∃ c1 w1, c.SetAuth env w user pass = (.panic, c1, w1) ∧ c1.toParams = c.toParams) ∨
    (∃ (c1 : client) (w3 : σ), c.SetAuth env w user pass =
        (.ok (), { c1 with Username := user, Password := pass }, w3) ∧
      c1.toParams = c.toParams ∧
      ∃ w1 body resBytes res,
        env.Do w1 ⟨ascii "POST", c.BaseURL ++ ascii "/api/v1/changepassword", some body⟩ =
          (.ok resBytes, w3) ∧
        env.unmarshal resBytes = .ok res ∧
        stringsToLower env.unicodeLower res.Error = ascii "ok") := by
  unfold client.SetAuth
  rcases login_cases env c w c.Username c.Password with ⟨e, w1, h⟩ | ⟨w1, h⟩ | ⟨res, w1, h⟩
  · rw [h]; exact Or.inl ⟨_, _, _, rfl, rfl⟩
  · rw [h]; exact Or.inr (Or.inl ⟨_, _, rfl, rfl⟩)
  · rw [h]
    simp only
    unfold client.loadLoginResponse
    cases hl : (env.tryLock w1).1
    · simp only [Bool.false_eq_true, if_false]; exact Or.inl ⟨_, _, _, rfl, rfl⟩
    · simp only [if_true]
      rcases callSetAuth_cases env { c with loginResponse := some res } (env.tryLock w1).2 user pass
          c.Password res.Salt with ⟨e, w3, h3⟩ | ⟨w3, h3⟩ | ⟨w3, h3, hresp⟩
      · simp only [h3]; exact Or.inl ⟨_, _, _, rfl, rfl⟩
      · simp only [h3]; exact Or.inr (Or.inl ⟨_, _, rfl, rfl⟩)
      · simp only [h3]
        exact Or.inr (Or.inr ⟨{ c with loginResponse := some res }, _, rfl, rfl, hresp⟩)

/-- The run of `SetAuth` can end in a panic: the server answers the first request, the
challenge call of the login, with the body `null`, on which `doAndDecode` calls `Validate`
through a nil interface. The credentials of the client are then still the old ones. -/
theorem SetAuth_null_body_panics :
    ((sampleClient true false).SetAuth nullServer [] (ascii "root") (ascii "hunter2")).1 =
      .panic ∧
    ((sampleClient true false).SetAuth nullServer [] (ascii "root")
      (ascii "hunter2")).2.1.toParams = (sampleClient true false).toParams ∧
    ((sampleClient true false).SetAuth nullServer [] (ascii "root")
      (ascii "hunter2")).2.2.length = 1 := by
  decide

/-- C10. Credential atomicity of `SetAuth`: if it returns an error, `Username` and `Password`
are what they were before the call; if it returns nil, they are `(user, pass)` and the
transport returned a change-password response that decoded and validated as `"ok"`. A run
that ends in a panic (the nil `Validate` call of `doAndDecode` on a body `null`) returns
nothing, and it too leaves `Username` and `Password` as they were: the credentials change in
no run other than one that returns nil. -/
theorem SetAuth_atomic {σ : Type} (env : Env σ) (c : client) (w : σ) (user pass : Bytes) :
    (∀ e, (c.SetAuth env w user pass).1 = .error e →
      (c.SetAuth env w user pass).2.1.Username = c.Username ∧
      (c.SetAuth env w user pass).2.1.Password = c.Password) ∧
    ((c.SetAuth env w user pass).1 = .ok () →
      (c.SetAuth env w user pass).2.1.Username = user ∧
      (c.SetAuth env w user pass).2.1.Password = pass ∧
      ∃ w1 body resBytes res,
        env.Do w1 ⟨ascii "POST", c.BaseURL ++ ascii "/api/v1/changepassword", some body⟩ =
          (.ok resBytes, (c.SetAuth env w user pass).2.2) ∧
        env.unmarshal resBytes = .ok res ∧
        stringsToLower env.unicodeLower res.Error = ascii "ok") ∧
    ((c.SetAuth env w user pass).1 = .panic →
      (c.SetAuth env w user pass).2.1.Username = c.Username ∧
      (c.SetAuth env w user pass).2.1.Password = c.Password) := by
  rcases SetAuth_cases env c w user pass with
    ⟨e, c1, w1, h, hp⟩ | ⟨c1, w1, h, hp⟩ | ⟨c1, w3, h, hp, hresp⟩
  · rw [h]
    refine ⟨fun _ _ => ?_, fun hok => by simp at hok, fun hpanic => by simp at hpanic⟩
    simp only
    exact ⟨congrArg Params.Username hp, congrArg Params.Password hp⟩
  · rw [h]
    refine ⟨fun e he => by simp at he, fun hok => by simp at hok, fun _ => ?_⟩
    simp only
    exact ⟨congrArg Params.Username hp, congrArg Params.Password hp⟩
  · rw [h]
    exact ⟨fun e he => by simp at he, fun _ => ⟨rfl, rfl, hresp⟩,
      fun hpanic => by simp at hpanic⟩

set_option maxRecDepth 100000 in
theorem SetAuth_atomic_witness :
    ((sampleClient true false).SetAuth failServer [] (ascii "root") (ascii "hunter2")).2.1.Username =
        (sampleClient true false).Username ∧
      ((sampleClient true false).SetAuth failServer [] (ascii "root") (ascii "hunter2")).2.1.Password =
        (sampleClient true false).Password :=
  (SetAuth_atomic failServer (sampleClient true false) [] (ascii "root") (ascii "hunter2")).1
    (.wrap "calling login to seek salt hash"
      (.wrap "validate response" (.validate (ascii "fail") (ascii "denied") (ascii "\x7b\x7d"))))
    (by decide)

/-- Go `Logout` leaves the parameters of the client as they were. -/
theorem Logout_toParams {σ : Type} (env : Env σ) (c : client) (w : σ) :
    (c.Logout env w).2.1.toParams = c.toParams := by
  unfold client.Logout
  rcases doAndDecode_raw env c w (ascii "POST") (ascii "/api/v1/session/logout") none with
    ⟨e, w1, h, _⟩ | ⟨rb, w1, h, _, _⟩
  · rw [h]
  · rw [h]
    simp only
    rcases storeLoginResponse_cases env c w1 none with h3 | ⟨e, h3⟩ <;> rw [h3]

/-- A result that ended well is the triple of `ok`, its client and its world. -/
theorem Result_eq_of_ok {σ : Type} (x : Result σ Unit) (h : x.1 = .ok ()) :
    x = (.ok (), x.2.1, x.2.2) := by
  rcases x with ⟨o, c, w⟩
  simp only at h
  rw [h]

/-- C7, as stated, fails. With `TryDefaultAuthFirst` set and `SetAuthIfDefault` not set, a
server that accepts the first two requests only lets the default login succeed, and `Login`
returns nil after those two requests, although the login with the configured credentials
fails from the state reached. With `SetAuthIfDefault` set, `SetAuth` fails at its third
request and `Login` returns that failure, wrapped, without a further login. -/
theorem Login_default_counterexample :
    ((sampleClient true false).Login twoThenFailServer []).1 = .ok () ∧
    ((sampleClient true false).Login twoThenFailServer []).2.2.length = 2 ∧
    (((sampleClient true false).Login twoThenFailServer []).2.1.login twoThenFailServer
      ((sampleClient true false).Login twoThenFailServer []).2.2
      (sampleClient true false).Username (sampleClient true false).Password).1 ≠ .ok () ∧
    ((sampleClient true true).Login twoThenFailServer []).1 =
      .error (.wrap "setting auth after default login"
        (.wrap "calling login to seek salt hash"
          (.wrap "validate response"
            (.validate (ascii "fail") (ascii "denied") (ascii "\x7b\x7d"))))) ∧
    ((sampleClient true true).Login twoThenFailServer []).2.2.length = 3 := by
  decide

/-- C7, amended. `Login` is exactly the login with the configured credentials when
`TryDefaultAuthFirst` is not set, when the default-credential login fails, and when the
default login, `SetAuth` and `Logout` all succeed. When the default login succeeds and
`SetAuthIfDefault` is not set, `Login` returns nil there and then; when `SetAuth` or `Logout`
fails, `Login` returns that failure, wrapped, and performs no further login. -/
theorem Login_spec {σ : Type} (env : Env σ) (c : client) (w : σ) :
    (c.TryDefaultAuthFirst = false → c.Login env w = c.login env w c.Username c.Password) ∧
    (c.TryDefaultAuthFirst = true →
      (∀ e c1 w1, c.login env w c.DefaultUsername c.DefaultPassword = (.error e, c1, w1) →
        c.Login env w = c1.login env w1 c.Username c.Password) ∧
      (∀ c1 w1, c.login env w c.DefaultUsername c.DefaultPassword = (.ok (), c1, w1) →
        (c.SetAuthIfDefault = false → c.Login env w = (.ok (), c1, w1)) ∧
        (c.SetAuthIfDefault = true →
          (∀ e c2 w2, c1.SetAuth env w1 c.Username c.Password = (.error e, c2, w2) →
            c.Login env w = (.error (.wrap "setting auth after default login" e), c2, w2)) ∧
          (∀ c2 w2, c1.SetAuth env w1 c.Username c.Password = (.ok (), c2, w2) →
            (∀ e c3 w3, c2.Logout env w2 = (.error e, c3, w3) →
              c.Login env w = (.error (.wrap "logging out after default login" e), c3, w3)) ∧
            (∀ c3 w3, c2.Logout env w2 = (.ok (), c3, w3) →
              c.Login env w = c3.login env w3 c.Username c.Password))))) := by
  refine ⟨fun ht => by simp [client.Login, ht], fun ht => ⟨fun e c1 w1 h => ?_, fun c1 w1 h => ?_⟩⟩
  · have hp : c1.toParams = c.toParams := by
      have := login_toParams env c w c.DefaultUsername c.DefaultPassword
      rwa [h] at this
    simp only [client.Login, ht, if_true, h]
    rw [congrArg Params.Username hp, congrArg Params.Password hp]
  · have hp : c1.toParams = c.toParams := by
      have := login_toParams env c w c.DefaultUsername c.DefaultPassword
      rwa [h] at this
    have hs : c1.SetAuthIfDefault = c.SetAuthIfDefault := congrArg Params.SetAuthIfDefault hp
    have hu : c1.Username = c.Username := congrArg Params.Username hp
    have hpw : c1.Password = c.Password := congrArg Params.Password hp
    refine ⟨fun hsa => by simp [client.Login, ht, h, hs, hsa], fun hsa =>
      ⟨fun e c2 w2 h2 => by simp [client.Login, ht, h, hs, hsa, hu, hpw, h2],
       fun c2 w2 h2 => ⟨fun e c3 w3 h3 => by simp [client.Login, ht, h, hs, hsa, hu, hpw, h2, h3],
         fun c3 w3 h3 => ?_⟩⟩⟩
    have hc2 : c2.Username = c.Username ∧ c2.Password = c.Password := by
      rcases SetAuth_cases env c1 w1 c.Username c.Password with
        ⟨e, c4, w4, h4, _⟩ | ⟨c4, w4, h4, _⟩ | ⟨c4, w4, h4, _, _⟩
      · rw [h2] at h4; simp at h4
      · rw [h2] at h4; simp at h4
      · rw [h2] at h4
        simp only [Prod.mk.injEq, true_and] at h4
        rw [h4.1]
        exact ⟨rfl, rfl⟩
    have hc3 : c3.toParams = c2.toParams := by
      have := Logout_toParams env c2 w2
      rwa [h3] at this
    simp only [client.Login, ht, if_true, h, hs, hsa, hu, hpw, h2, h3, Bool.not_true,
      Bool.false_eq_true, if_false]
    rw [congrArg Params.Username hc3, congrArg Params.Password hc3, hc2.1, hc2.2]

theorem Login_spec_witness :
    ((sampleClient false false).Login okServer [] =
      (sampleClient false false).login okServer [] (sampleClient false false).Username
        (sampleClient false false).Password) ∧
    ((sampleClient true false).Login twoThenFailServer [] =
      (.ok (),
        ((sampleClient true false).login twoThenFailServer []
          (sampleClient true false).DefaultUsername (sampleClient true false).DefaultPassword).2.1,
        ((sampleClient true false).login twoThenFailServer []
          (sampleClient true false).DefaultUsername
          (sampleClient true false).DefaultPassword).2.2)) :=
  ⟨(Login_spec okServer (sampleClient false false) []).1 rfl,
   (((Login_spec twoThenFailServer (sampleClient true false) []).2 rfl).2 _ _
      (Result_eq_of_ok _ (by decide))).1 rfl⟩

/-- The two-round derivation yields 32 characters. -/
theorem length_doPBKDF2WebUI (password salt saltWebUI : Bytes) :
    (doPBKDF2WebUI password salt saltWebUI 1000 16).length = 32 := by
  simp [doPBKDF2WebUI, doPBKDF2, length_hexEncode, length_pbkdf2Key]

theorem stubUnmarshal_okBody :
    stubUnmarshal okBody =
      .ok { Error := ascii "ok", Message := [], Data := ascii "\x7b\x7d",
            Salt := ascii "\"none\"", SaltWebUI := ascii "\"none\"" } := by
  simp [stubUnmarshal]

/-- Against the server that answers `okBody`, a login call is sent, recorded, and decoded to
the response with the quoted salts. -/
theorem okServer_callLogin (c : client) (w : List Request) (user pass : Bytes) :
    c.callLogin okServer w user pass =
      (.ok { Error := ascii "ok", Message := [], Data := ascii "\x7b\x7d",
             Salt := ascii "\"none\"", SaltWebUI := ascii "\"none\"" },
       w ++ [⟨ascii "POST", c.BaseURL ++ ascii "/api/v1/session/login",
         some (urlValuesEncode [(ascii "username", user), (ascii "password", pass)])⟩]) := by
  have hv : response.Validate (fun s => s)
      { Error := ascii "ok", Message := [], Data := ascii "\x7b\x7d" } = none := by decide
  have hnull : jsonIsNull okBody = false := by decide
  simp [client.callLogin, client.doAndDecode, okServer, stubEnv, stubUnmarshal_okBody, hv,
    hnull]

/-- The quoted text `"none"`, six bytes, is not the sentinel `none`. -/
theorem quoted_none_ne : ascii "\"none\"" ≠ noneStr := by decide

/-- C8, on the code. The server answers the challenge with error `"ok"` and salt the JSON
string `"none"`; the `json.RawMessage` field holds the quoted text, which is not `noneStr`.
The second request then carries the two-round derivation salted with the quoted text, a
32-character value, and not the submitted password `cga4233`. The login still succeeds and
stores the challenge response. -/
theorem login_sentinel_sends_derived :
    (sampleClient false false).login okServer [] (ascii "custadmin") (ascii "cga4233") =
      (.ok (),
       { sampleClient false false with
         loginResponse := some { Error := ascii "ok", Message := [], Data := ascii "\x7b\x7d",
                                 Salt := ascii "\"none\"", SaltWebUI := ascii "\"none\"" } },
       [⟨ascii "POST", (sampleClient false false).BaseURL ++ ascii "/api/v1/session/login",
          some (urlValuesEncode [(ascii "username", ascii "custadmin"),
            (ascii "password", ascii "seeksalthash")])⟩,
        ⟨ascii "POST", (sampleClient false false).BaseURL ++ ascii "/api/v1/session/login",
          some (urlValuesEncode [(ascii "username", ascii "custadmin"),
            (ascii "password",
              doPBKDF2WebUI (ascii "cga4233") (ascii "\"none\"") (ascii "\"none\"") 1000
                16)])⟩]) ∧
    doPBKDF2WebUI (ascii "cga4233") (ascii "\"none\"") (ascii "\"none\"") 1000 16 ≠
      ascii "cga4233" := by
  constructor
  · simp [client.login, okServer_callLogin, DefaultDerivePasswordWebUI, derivePasswordWebUI,
      quoted_none_ne, defaultPBKDF2iter, defaultPBKDF2keyLenBytes, client.storeLoginResponse]
    simp [okServer, stubEnv]
  · intro h
    have := congrArg List.length h
    rw [length_doPBKDF2WebUI] at this
    revert this
    decide

/-! ## The PBKDF2 loop on words agrees with the loop on bytes -/

theorem bytesBE_four (x : Nat) :
    bytesBE 4 x = [x / 16777216 % 256, x / 65536 % 256, x / 256 % 256, x % 256] := by
  have h3 : x >>> 24 = x / 16777216 := Nat.shiftRight_eq_div_pow x 24
  have h2 : x >>> 16 = x / 65536 := Nat.shiftRight_eq_div_pow x 16
  have h1 : x >>> 8 = x / 256 := Nat.shiftRight_eq_div_pow x 8
  have h0 : x >>> 0 = x := rfl
  show [(x >>> 24) % 256, (x >>> 16) % 256, (x >>> 8) % 256, (x >>> 0) % 256] = _
  rw [h3, h2, h1, h0]

theorem wordsBE_bytesBE (x : Nat) (h : x < 4294967296) (r : Bytes) :
    wordsBE (bytesBE 4 x ++ r) = x :: wordsBE r := by
  rw [bytesBE_four]
  show (x / 16777216 % 256 * 16777216 + x / 65536 % 256 * 65536 + x / 256 % 256 * 256 +
    x % 256) :: wordsBE r = _
  congr 1
  omega

theorem wordsBE_sha256Digest (s : SHA256State) (h : s.wellFormed) (r : Bytes) :
    wordsBE (sha256Digest s ++ r) = s.words ++ wordsBE r := by
  have hw : ∀ x ∈ s.words, x < 4294967296 := h
  simp only [SHA256State.words, List.mem_cons, List.mem_singleton, List.not_mem_nil, or_false,
    forall_eq_or_imp, forall_eq] at hw
  obtain ⟨ha, hb, hc, hd, he, hf, hg, hh⟩ := hw
  simp only [sha256Digest, List.append_assoc, SHA256State.words, List.cons_append,
    List.nil_append]
  rw [wordsBE_bytesBE _ ha, wordsBE_bytesBE _ hb, wordsBE_bytesBE _ hc, wordsBE_bytesBE _ hd,
    wordsBE_bytesBE _ he, wordsBE_bytesBE _ hf, wordsBE_bytesBE _ hg, wordsBE_bytesBE _ hh]

theorem sha256Add_wellFormed (s r : SHA256State) : (sha256Add s r).wellFormed := by
  intro x hx
  simp only [sha256Add, SHA256State.words, List.mem_cons, List.mem_singleton,
    List.not_mem_nil, or_false] at hx
  rcases hx with rfl | rfl | rfl | rfl | rfl | rfl | rfl | rfl <;>
    exact Nat.mod_lt _ (by decide)

theorem sha256Compress_wellFormed (s : SHA256State) (w : List Nat) (h : s.wellFormed) :
    (sha256Compress s w).wellFormed := by
  unfold sha256Compress
  split
  · exact sha256Add_wellFormed _ _
  · exact h

/-- A 32-byte digest written to a hash that has absorbed one block fills one block. -/
theorem sha256Sum_digest (st u : SHA256State) (h : u.wellFormed) :
    sha256Sum st 64 (sha256Digest u) =
      sha256Digest (sha256Compress st (u.words ++ digestBlockTail)) := by
  have hpad : sha256Padding (64 + 32) = 128 :: (List.replicate 29 0 ++ [3, 0]) := by decide
  have htail : wordsBE (128 :: (List.replicate 29 0 ++ [3, 0])) = digestBlockTail := by decide
  have hlen : (sha256Digest u ++ 128 :: (List.replicate 29 0 ++ [3, 0])).length = 64 := by
    simp [length_sha256Digest]
  unfold sha256Sum
  rw [length_sha256Digest, hpad]
  show sha256Digest (sha256Blocks 1 st _) = _
  rw [sha256Blocks, sha256Blocks, ← hlen, List.take_length, wordsBE_sha256Digest u h, htail]

theorem hmacSum_digest (p : HMACState) (u : SHA256State) (h : u.wellFormed)
    (hp : p.inner.wellFormed) :
    hmacSum p (sha256Digest u) = sha256Digest (hmacSumWords p u) := by
  unfold hmacSum hmacSumWords
  rw [sha256Sum_digest _ _ h, sha256Sum_digest _ _ (sha256Compress_wellFormed _ _ hp)]

theorem hmacSumWords_wellFormed (p : HMACState) (u : SHA256State) (hp : p.outer.wellFormed) :
    (hmacSumWords p u).wellFormed :=
  sha256Compress_wellFormed _ _ hp

theorem xor_byte (a b k : Nat) :
    Nat.xor (a / 2 ^ k % 256) (b / 2 ^ k % 256) = Nat.xor a b / 2 ^ k % 256 := by
  show (a / 2 ^ k % 2 ^ 8) ^^^ (b / 2 ^ k % 2 ^ 8) = (a ^^^ b) / 2 ^ k % 2 ^ 8
  apply Nat.eq_of_testBit_eq
  intro i
  simp only [Nat.testBit_xor, Nat.testBit_mod_two_pow, ← Nat.shiftRight_eq_div_pow,
    Nat.testBit_shiftRight]
  cases decide (i < 8) <;> simp

theorem xorBytes_bytesBE (a b : Nat) :
    xorBytes (bytesBE 4 a) (bytesBE 4 b) = bytesBE 4 (Nat.xor a b) := by
  have h24 := xor_byte a b 24
  have h16 := xor_byte a b 16
  have h8 := xor_byte a b 8
  have h0 := xor_byte a b 0
  norm_num at h24 h16 h8 h0
  rw [bytesBE_four, bytesBE_four, bytesBE_four]
  simp only [xorBytes, List.zipWith_cons_cons, List.zipWith_nil_right]
  rw [h24, h16, h8, h0]

theorem xorBytes_append (a b c d : Bytes) (h : a.length = c.length) :
    xorBytes (a ++ b) (c ++ d) = xorBytes a c ++ xorBytes b d := by
  unfold xorBytes
  exact List.zipWith_append _ _ _ _ _ h

theorem xorBytes_sha256Digest (t u : SHA256State) :
    xorBytes (sha256Digest t) (sha256Digest u) = sha256Digest (xorState t u) := by
  simp only [sha256Digest, xorState]
  rw [xorBytes_append _ _ _ _ (by simp [length_bytesBE]),
    xorBytes_append _ _ _ _ (by simp [length_bytesBE]),
    xorBytes_append _ _ _ _ (by simp [length_bytesBE]),
    xorBytes_append _ _ _ _ (by simp [length_bytesBE]),
    xorBytes_append _ _ _ _ (by simp [length_bytesBE]),
    xorBytes_append _ _ _ _ (by simp [length_bytesBE]),
    xorBytes_append _ _ _ _ (by simp [length_bytesBE])]
  simp only [xorBytes_bytesBE]

/-- The loop on bytes started from digests is the digest of the loop on words. -/
theorem pbkdf2Loop_digest (prf : HMACState) (hi : prf.inner.wellFormed)
    (ho : prf.outer.wellFormed) (n : Nat) (u t : SHA256State) (hu : u.wellFormed) :
    pbkdf2Loop prf n (sha256Digest u) (sha256Digest t) =
      sha256Digest (pbkdf2LoopWords prf n (u, t)).2 := by
  induction n generalizing u t with
  | zero => rfl
  | succ n ih =>
    simp only [pbkdf2Loop, pbkdf2LoopWords]
    rw [hmacSum_digest prf u hu hi, xorBytes_sha256Digest,
      ih _ _ (hmacSumWords_wellFormed prf u ho)]

/-- Two runs of the loop on words compose. -/
theorem pbkdf2LoopWords_chain (prf : HMACState) (m n : Nat)
    (ut ut1 ut2 : SHA256State × SHA256State)
    (h1 : pbkdf2LoopWords prf m ut = ut1) (h2 : pbkdf2LoopWords prf n ut1 = ut2) :
    pbkdf2LoopWords prf (m + n) ut = ut2 := by
  subst h1 h2
  induction m generalizing ut with
  | zero => simp [pbkdf2LoopWords]
  | succ m ih =>
    rw [Nat.succ_add]
    simp only [pbkdf2LoopWords]
    exact ih _

/-- A one-block key of 16 bytes from the PRF state, the first PRF output and the final `T`
of the loop on words. -/
theorem pbkdf2Key_of_words (password salt : Bytes) (prf : HMACState) (u1 uN tN : SHA256State)
    (hprf : hmacNew password = prf) (hi : prf.inner.wellFormed) (ho : prf.outer.wellFormed)
    (hu1 : hmacSum prf (salt ++ bytesBE 4 1) = sha256Digest u1) (hw : u1.wellFormed)
    (hloop : pbkdf2LoopWords prf 999 (u1, u1) = (uN, tN)) :
    pbkdf2Key password salt 1000 16 = (sha256Digest tN).take 16 := by
  have hr : List.range ((16 + 32 - 1) / 32) = [0] := by decide
  unfold pbkdf2Key
  rw [hr]
  simp only [List.flatMap_cons, List.flatMap_nil, List.append_nil, pbkdf2Block, hprf]
  rw [hu1, pbkdf2Loop_digest prf hi ho _ _ _ hw, hloop]

/-! ## The evaluation forms agree with the definitions -/

/-- The recursor form of the rounds computes `sha256Rounds`. -/
theorem sha256RoundsFast_eq (ks : List Nat) :
    ∀ a b c d e f g h w0 w1 w2 w3 w4 w5 w6 w7 w8 w9 w10 w11 w12 w13 w14 w15 : Nat,
      sha256RoundsFast ks a b c d e f g h w0 w1 w2 w3 w4 w5 w6 w7 w8 w9 w10 w11 w12 w13 w14 w15 =
        sha256Rounds ks ⟨a, b, c, d, e, f, g, h⟩
          w0 w1 w2 w3 w4 w5 w6 w7 w8 w9 w10 w11 w12 w13 w14 w15 := by
  induction ks with
  | nil => intros; rfl
  | cons k ks ih =>
    intro a b c d e f g h w0 w1 w2 w3 w4 w5 w6 w7 w8 w9 w10 w11 w12 w13 w14 w15
    exact ih _ _ _ _ _ _ _ _ _ _ _ _ _ _ _ _ _ _ _ _ _ _ _ _

/-- The continuation of `compressDigestFast` receives the words of `sha256Compress` on the
block `m0 .. m7` followed by `digestBlockTail`. -/
theorem compressDigestFast_eq {α : Type} (s0 s1 s2 s3 s4 s5 s6 s7 m0 m1 m2 m3 m4 m5 m6 m7 : Nat)
    (k : (a b c d e f g h : Nat) → α) (r : SHA256State)
    (hr : sha256Compress ⟨s0, s1, s2, s3, s4, s5, s6, s7⟩
      ([m0, m1, m2, m3, m4, m5, m6, m7] ++ digestBlockTail) = r) :
    compressDigestFast s0 s1 s2 s3 s4 s5 s6 s7 m0 m1 m2 m3 m4 m5 m6 m7 k =
      k r.a r.b r.c r.d r.e r.f r.g r.h := by
  have h : sha256Compress ⟨s0, s1, s2, s3, s4, s5, s6, s7⟩
      ([m0, m1, m2, m3, m4, m5, m6, m7] ++ digestBlockTail) =
      sha256Add ⟨s0, s1, s2, s3, s4, s5, s6, s7⟩
        (sha256Rounds sha256K ⟨s0, s1, s2, s3, s4, s5, s6, s7⟩ m0 m1 m2 m3 m4 m5 m6 m7
          2147483648 0 0 0 0 0 0 768) := rfl
  rw [← hr, h]
  unfold compressDigestFast
  rw [sha256RoundsFast_eq]
  generalize sha256Rounds sha256K ⟨s0, s1, s2, s3, s4, s5, s6, s7⟩ m0 m1 m2 m3 m4 m5 m6 m7
    2147483648 0 0 0 0 0 0 768 = q
  cases q
  rfl

/-- The recursor form of the loop computes `pbkdf2LoopWords`. -/
theorem pbkdf2LoopFast_eq (i0 i1 i2 i3 i4 i5 i6 i7 o0 o1 o2 o3 o4 o5 o6 o7 : Nat) (n : Nat) :
    ∀ u0 u1 u2 u3 u4 u5 u6 u7 t0 t1 t2 t3 t4 t5 t6 t7 : Nat,
      pbkdf2LoopFast i0 i1 i2 i3 i4 i5 i6 i7 o0 o1 o2 o3 o4 o5 o6 o7 n
          u0 u1 u2 u3 u4 u5 u6 u7 t0 t1 t2 t3 t4 t5 t6 t7 =
        pbkdf2LoopWords ⟨⟨i0, i1, i2, i3, i4, i5, i6, i7⟩, ⟨o0, o1, o2, o3, o4, o5, o6, o7⟩⟩ n
          (⟨u0, u1, u2, u3, u4, u5, u6, u7⟩, ⟨t0, t1, t2, t3, t4, t5, t6, t7⟩) := by
  induction n with
  | zero => intros; rfl
  | succ n ih =>
    intro u0 u1 u2 u3 u4 u5 u6 u7 t0 t1 t2 t3 t4 t5 t6 t7
    have step : pbkdf2LoopFast i0 i1 i2 i3 i4 i5 i6 i7 o0 o1 o2 o3 o4 o5 o6 o7 (n + 1)
        u0 u1 u2 u3 u4 u5 u6 u7 t0 t1 t2 t3 t4 t5 t6 t7 =
        compressDigestFast i0 i1 i2 i3 i4 i5 i6 i7 u0 u1 u2 u3 u4 u5 u6 u7
          fun a b c d e f g h =>
            compressDigestFast o0 o1 o2 o3 o4 o5 o6 o7 a b c d e f g h
              fun a b c d e f g h =>
                pbkdf2LoopFast i0 i1 i2 i3 i4 i5 i6 i7 o0 o1 o2 o3 o4 o5 o6 o7 n
                  a b c d e f g h (Nat.xor t0 a) (Nat.xor t1 b) (Nat.xor t2 c) (Nat.xor t3 d)
                  (Nat.xor t4 e) (Nat.xor t5 f) (Nat.xor t6 g) (Nat.xor t7 h) := rfl
    rw [step, compressDigestFast_eq _ _ _ _ _ _ _ _ _ _ _ _ _ _ _ _ _ _ rfl,
      compressDigestFast_eq _ _ _ _ _ _ _ _ _ _ _ _ _ _ _ _ _ _ rfl, ih]
    have hR : hmacSumWords ⟨⟨i0, i1, i2, i3, i4, i5, i6, i7⟩, ⟨o0, o1, o2, o3, o4, o5, o6, o7⟩⟩
        ⟨u0, u1, u2, u3, u4, u5, u6, u7⟩ =
        sha256Compress ⟨o0, o1, o2, o3, o4, o5, o6, o7⟩
          ((sha256Compress ⟨i0, i1, i2, i3, i4, i5, i6, i7⟩
            ([u0, u1, u2, u3, u4, u5, u6, u7] ++ digestBlockTail)).words ++ digestBlockTail) := rfl
    rw [pbkdf2LoopWords]
    dsimp only
    rw [hR]
    generalize sha256Compress ⟨i0, i1, i2, i3, i4, i5, i6, i7⟩
      ([u0, u1, u2, u3, u4, u5, u6, u7] ++ digestBlockTail) = q
    cases q
    dsimp only [SHA256State.words]
    generalize sha256Compress ⟨o0, o1, o2, o3, o4, o5, o6, o7⟩ _ = r
    cases r
    rfl

/-! ## The known vector of `TestDoPBKDF2WebUI`, replayed -/

/-- First round of the known vector: the keyed HMAC states. -/
theorem round1_prf : hmacNew (ascii "cga4233") = ⟨⟨743857736, 3644699138, 1809550338,
    3278547328, 1534488382, 4043141210, 2238938759, 1354851885⟩, ⟨3893004616, 1157983978,
    140513215, 3810640104, 1947386825, 2682796121, 1161181984, 4269261629⟩⟩ := by
  decide!

/-- First round of the known vector: the first PRF output `U_1`. -/
theorem round1_first : hmacSum ⟨⟨743857736, 3644699138, 1809550338, 3278547328, 1534488382,
    4043141210, 2238938759, 1354851885⟩, ⟨3893004616, 1157983978, 140513215, 3810640104,
    1947386825, 2682796121, 1161181984, 4269261629⟩⟩ (ascii "ruf32WxGYH98" ++ bytesBE 4 1) =
    sha256Digest ⟨2725095134, 3526738285, 3096760375, 1526254598, 1675752296, 1288646701,
    3207427645, 1021851580⟩ := by
  decide!

/-- First round of the known vector: iterations 2 to 51. -/
theorem round1_loop0 : pbkdf2LoopWords ⟨⟨743857736, 3644699138, 1809550338, 3278547328,
    1534488382, 4043141210, 2238938759, 1354851885⟩, ⟨3893004616, 1157983978, 140513215,
    3810640104, 1947386825, 2682796121, 1161181984, 4269261629⟩⟩ 50 (⟨2725095134, 3526738285,
    3096760375, 1526254598, 1675752296, 1288646701, 3207427645, 1021851580⟩, ⟨2725095134,
    3526738285, 3096760375, 1526254598, 1675752296, 1288646701, 3207427645, 1021851580⟩) =
    (⟨904876898, 1819192937, 3127900594, 1627247154, 731795097, 3463751727, 1408888043,
    1361041460⟩, ⟨1245797001, 3189842807, 2004653579, 1591077998, 1263050436, 3561377089,
    2638610807, 289917505⟩) := by
  rw [← pbkdf2LoopFast_eq]
  decide!

/-- First round of the known vector: iterations 52 to 101. -/
theorem round1_loop1 : pbkdf2LoopWords ⟨⟨743857736, 3644699138, 1809550338, 3278547328,
    1534488382, 4043141210, 2238938759, 1354851885⟩, ⟨3893004616, 1157983978, 140513215,
    3810640104, 1947386825, 2682796121, 1161181984, 4269261629⟩⟩ 50 (⟨904876898, 1819192937,
    3127900594, 1627247154, 731795097, 3463751727, 1408888043, 1361041460⟩, ⟨1245797001,
    3189842807, 2004653579, 1591077998, 1263050436, 3561377089, 2638610807, 289917505⟩) =
    (⟨1006646203, 1994535635, 1702544524, 2542320485, 3128122078, 3942589125, 1779363600,
    2234058614⟩, ⟨2166965143, 1149687982, 1733321724, 3338466219, 144566254, 3376514118,
    3784445738, 4014277802⟩) := by
  rw [← pbkdf2LoopFast_eq]
  decide!

/-- First round of the known vector: iterations 102 to 151. -/
theorem round1_loop2 : pbkdf2LoopWords ⟨⟨743857736, 3644699138, 1809550338, 3278547328,
    1534488382, 4043141210, 2238938759, 1354851885⟩, ⟨3893004616, 1157983978, 140513215,
    3810640104, 1947386825, 2682796121, 1161181984, 4269261629⟩⟩ 50 (⟨1006646203, 1994535635,
    1702544524, 2542320485, 3128122078, 3942589125, 1779363600, 2234058614⟩, ⟨2166965143,
    1149687982, 1733321724, 3338466219, 144566254, 3376514118, 3784445738, 4014277802⟩) =
    (⟨3744203021, 1200079001, 2114376307, 1540709938, 570943045, 3336559142, 3847443831,
    1508414579⟩, ⟨4172976705, 3616643612, 943913103, 195255010, 2895313830, 3565429982,
    2689436417, 3066038004⟩) := by
  rw [← pbkdf2LoopFast_eq]
  decide!

/-- First round of the known vector: iterations 152 to 201. -/
theorem round1_loop3 : pbkdf2LoopWords ⟨⟨743857736, 3644699138, 1809550338, 3278547328,
    1534488382, 4043141210, 2238938759, 1354851885⟩, ⟨3893004616, 1157983978, 140513215,
    3810640104, 1947386825, 2682796121, 1161181984, 4269261629⟩⟩ 50 (⟨3744203021, 1200079001,
    2114376307, 1540709938, 570943045, 3336559142, 3847443831, 1508414579⟩, ⟨4172976705,
    3616643612, 943913103, 195255010, 2895313830, 3565429982, 2689436417, 3066038004⟩) =
    (⟨864246973, 1347857156, 1212453506, 1179851859, 3371061447, 43146524, 2163859091,
    872392893⟩, ⟨3696265406, 3442091964, 1946380684, 322247659, 3782043537, 3977166668,
    294797749, 2639877336⟩) := by
  rw [← pbkdf2LoopFast_eq]
  decide!

/-- First round of the known vector: iterations 202 to 251. -/
theorem round1_loop4 : pbkdf2LoopWords ⟨⟨743857736, 3644699138, 1809550338, 3278547328,
    1534488382, 4043141210, 2238938759, 1354851885⟩, ⟨3893004616, 1157983978, 140513215,
    3810640104, 1947386825, 2682796121, 1161181984, 4269261629⟩⟩ 50 (⟨864246973, 1347857156,
    1212453506, 1179851859, 3371061447, 43146524, 2163859091, 872392893⟩, ⟨3696265406,
    3442091964, 1946380684, 322247659, 3782043537, 3977166668, 294797749, 2639877336⟩) =
    (⟨58661005, 2049036862, 3614145444, 2992125192, 679523053, 412439678, 4106609360,
    3097527633⟩, ⟨3969714887, 1913226159, 3817227354, 2095539378, 1220945704, 294165849,
    1849504960, 1322403459⟩) := by
  rw [← pbkdf2LoopFast_eq]
  decide!

/-- First round of the known vector: iterations 252 to 301. -/
theorem round1_loop5 : pbkdf2LoopWords ⟨⟨743857736, 3644699138, 1809550338, 3278547328,
    1534488382, 4043141210, 2238938759, 1354851885⟩, ⟨3893004616, 1157983978, 140513215,
    3810640104, 1947386825, 2682796121, 1161181984, 4269261629⟩⟩ 50 (⟨58661005, 2049036862,
    3614145444, 2992125192, 679523053, 412439678, 4106609360, 3097527633⟩, ⟨3969714887,
    1913226159, 3817227354, 2095539378, 1220945704, 294165849, 1849504960, 1322403459⟩) =
    (⟨3390515058, 1133676797, 2186679165, 3277216485, 1446026761, 2633884730, 1447945028,
    278652017⟩, ⟨41241888, 2529223471, 3937463218, 2724989026, 2531581654, 1937841190,
    2541245889, 2933214678⟩) := by
  rw [← pbkdf2LoopFast_eq]
  decide!

/-- First round of the known vector: iterations 302 to 351. -/
theorem round1_loop6 : pbkdf2LoopWords ⟨⟨743857736, 3644699138, 1809550338, 3278547328,
    1534488382, 4043141210, 2238938759, 1354851885⟩, ⟨3893004616, 1157983978, 140513215,
    3810640104, 1947386825, 2682796121, 1161181984, 4269261629⟩⟩ 50 (⟨3390515058, 1133676797,
    2186679165, 3277216485, 1446026761, 2633884730, 1447945028, 278652017⟩, ⟨41241888,
    2529223471, 3937463218, 2724989026, 2531581654, 1937841190, 2541245889, 2933214678⟩) =
    (⟨1044955156, 2252746779, 3958977609, 1157999755, 3694486365, 531201597, 2139870835,
    951062069⟩, ⟨550705095, 2675495246, 2952851110, 813436721, 613374535, 3604810299,
    3959926972, 3218302820⟩) := by
  rw [← pbkdf2LoopFast_eq]
  decide!

/-- First round of the known vector: iterations 352 to 401. -/
theorem round1_loop7 : pbkdf2LoopWords ⟨⟨743857736, 3644699138, 1809550338, 3278547328,
    1534488382, 4043141210, 2238938759, 1354851885⟩, ⟨3893004616, 1157983978, 140513215,
    3810640104, 1947386825, 2682796121, 1161181984, 4269261629⟩⟩ 50 (⟨1044955156, 2252746779,
    3958977609, 1157999755, 3694486365, 531201597, 2139870835, 951062069⟩, ⟨550705095,
    2675495246, 2952851110, 813436721, 613374535, 3604810299, 3959926972, 3218302820⟩) =
    (⟨3108033439, 712099246, 2848765882, 84405561, 3420068088, 2760269729, 2423533878,
    1750579220⟩, ⟨4051214240, 4145934677, 643458914, 1916275484, 3345471391, 1162792113,
    3105646548, 3563751268⟩) := by
  rw [← pbkdf2LoopFast_eq]
  decide!

/-- First round of the known vector: iterations 402 to 451. -/
theorem round1_loop8 : pbkdf2LoopWords ⟨⟨743857736, 3644699138, 1809550338, 3278547328,
    1534488382, 4043141210, 2238938759, 1354851885⟩, ⟨3893004616, 1157983978, 140513215,
    3810640104, 1947386825, 2682796121, 1161181984, 4269261629⟩⟩ 50 (⟨3108033439, 712099246,
    2848765882, 84405561, 3420068088, 2760269729, 2423533878, 1750579220⟩, ⟨4051214240,
    4145934677, 643458914, 1916275484, 3345471391, 1162792113, 3105646548, 3563751268⟩) =
    (⟨2553024179, 552290196, 1861934699, 3294884519, 254905627, 2868685340, 1774391123,
    2149615279⟩, ⟨2318287211, 244573492, 2767889161, 2868592412, 2344227061, 1567998842,
    289205190, 3173825680⟩) := by
  rw [← pbkdf2LoopFast_eq]
  decide!

/-- First round of the known vector: iterations 452 to 501. -/
theorem round1_loop9 : pbkdf2LoopWords ⟨⟨743857736, 3644699138, 1809550338, 3278547328,
    1534488382, 4043141210, 2238938759, 1354851885⟩, ⟨3893004616, 1157983978, 140513215,
    3810640104, 1947386825, 2682796121, 1161181984, 4269261629⟩⟩ 50 (⟨2553024179, 552290196,
    1861934699, 3294884519, 254905627, 2868685340, 1774391123, 2149615279⟩, ⟨2318287211,
    244573492, 2767889161, 2868592412, 2344227061, 1567998842, 289205190, 3173825680⟩) =
    (⟨1300434002, 3292345345, 2008450173, 3147840292, 552887131, 124685982, 1271367215,
    2388013702⟩, ⟨4156201462, 2755722784, 2509656792, 558904256, 3066169812, 4271181317,
    2387695678, 3597489918⟩) := by
  rw [← pbkdf2LoopFast_eq]
  decide!

/-- First round of the known vector: iterations 502 to 551. -/
theorem round1_loop10 : pbkdf2LoopWords ⟨⟨743857736, 3644699138, 1809550338, 3278547328,
    1534488382, 4043141210, 2238938759, 1354851885⟩, ⟨3893004616, 1157983978, 140513215,
    3810640104, 1947386825, 2682796121, 1161181984, 4269261629⟩⟩ 50 (⟨1300434002, 3292345345,
    2008450173, 3147840292, 552887131, 124685982, 1271367215, 2388013702⟩, ⟨4156201462,
    2755722784, 2509656792, 558904256, 3066169812, 4271181317, 2387695678, 3597489918⟩) =
    (⟨3287471918, 3236921524, 3993894926, 2351980430, 64922680, 2706998890, 2738633853,
    3168636560⟩, ⟨82456413, 1385693684, 3721959370, 234692911, 1335366561, 2424237447,
    1828015965, 3049769218⟩) := by
  rw [← pbkdf2LoopFast_eq]
  decide!

/-- First round of the known vector: iterations 552 to 601. -/
theorem round1_loop11 : pbkdf2LoopWords ⟨⟨743857736, 3644699138, 1809550338, 3278547328,
    1534488382, 4043141210, 2238938759, 1354851885⟩, ⟨3893004616, 1157983978, 140513215,
    3810640104, 1947386825, 2682796121, 1161181984, 4269261629⟩⟩ 50 (⟨3287471918, 3236921524,
    3993894926, 2351980430, 64922680, 2706998890, 2738633853, 3168636560⟩, ⟨82456413,
    1385693684, 3721959370, 234692911, 1335366561, 2424237447, 1828015965, 3049769218⟩) =
    (⟨2763954640, 1983404605, 2961199929, 2286030020, 2836792328, 3040030135, 2663313638,
    1480210869⟩, ⟨1522479835, 4142795582, 2570669738, 2286816567, 2487930152, 184793325,
    3342117251, 2442083143⟩) := by
  rw [← pbkdf2LoopFast_eq]
  decide!

/-- First round of the known vector: iterations 602 to 651. -/
theorem round1_loop12 : pbkdf2LoopWords ⟨⟨743857736, 3644699138, 1809550338, 3278547328,
    1534488382, 4043141210, 2238938759, 1354851885⟩, ⟨3893004616, 1157983978, 140513215,
    3810640104, 1947386825, 2682796121, 1161181984, 4269261629⟩⟩ 50 (⟨2763954640, 1983404605,
    2961199929, 2286030020, 2836792328, 3040030135, 2663313638, 1480210869⟩, ⟨1522479835,
    4142795582, 2570669738, 2286816567, 2487930152, 184793325, 3342117251, 2442083143⟩) =
    (⟨26493506, 1363707521, 2057687061, 4025683774, 3005299558, 2516224089, 1742733642,
    2882204234⟩, ⟨2670356048, 930437088, 820536532, 2169458449, 2303658484, 2123618876,
    2557856692, 2564224397⟩) := by
  rw [← pbkdf2LoopFast_eq]
  decide!

/-- First round of the known vector: iterations 652 to 701. -/
theorem round1_loop13 : pbkdf2LoopWords ⟨⟨743857736, 3644699138, 1809550338, 3278547328,
    1534488382, 4043141210, 2238938759, 1354851885⟩, ⟨3893004616, 1157983978, 140513215,
    3810640104, 1947386825, 2682796121, 1161181984, 4269261629⟩⟩ 50 (⟨26493506, 1363707521,
    2057687061, 4025683774, 3005299558, 2516224089, 1742733642, 2882204234⟩, ⟨2670356048,
    930437088, 820536532, 2169458449, 2303658484, 2123618876, 2557856692, 2564224397⟩) =
    (⟨416412193, 1463438515, 3778341357, 1191307558, 384001722, 971970948, 3053023572,
    709267614⟩, ⟨2417754433, 3000913503, 1993466377, 510173637, 288756416, 205576214,
    3899504457, 1814434589⟩) := by
  rw [← pbkdf2LoopFast_eq]
  decide!

/-- First round of the known vector: iterations 702 to 751. -/
theorem round1_loop14 : pbkdf2LoopWords ⟨⟨743857736, 3644699138, 1809550338, 3278547328,
    1534488382, 4043141210, 2238938759, 1354851885⟩, ⟨3893004616, 1157983978, 140513215,
    3810640104, 1947386825, 2682796121, 1161181984, 4269261629⟩⟩ 50 (⟨416412193, 1463438515,
    3778341357, 1191307558, 384001722, 971970948, 3053023572, 709267614⟩, ⟨2417754433,
    3000913503, 1993466377, 510173637, 288756416, 205576214, 3899504457, 1814434589⟩) =
    (⟨57247715, 2515868797, 1472267630, 2143158061, 1726520117, 3063624895, 351371335,
    233755040⟩, ⟨483064843, 1878729001, 4286496596, 3850391249, 1762402040, 941908061,
    3182724365, 1011751920⟩) := by
  rw [← pbkdf2LoopFast_eq]
  decide!

/-- First round of the known vector: iterations 752 to 801. -/
theorem round1_loop15 : pbkdf2LoopWords ⟨⟨743857736, 3644699138, 1809550338, 3278547328,
    1534488382, 4043141210, 2238938759, 1354851885⟩, ⟨3893004616, 1157983978, 140513215,
    3810640104, 1947386825, 2682796121, 1161181984, 4269261629⟩⟩ 50 (⟨57247715, 2515868797,
    1472267630, 2143158061, 1726520117, 3063624895, 351371335, 233755040⟩, ⟨483064843,
    1878729001, 4286496596, 3850391249, 1762402040, 941908061, 3182724365, 1011751920⟩) =
    (⟨2355030266, 2278173287, 1376748668, 149967579, 213975930, 868816531, 3284875203,
    2338488494⟩, ⟨386403519, 598324358, 203145801, 54586135, 3267364481, 2107144137, 2059948705,
    3514448732⟩) := by
  rw [← pbkdf2LoopFast_eq]
  decide!

/-- First round of the known vector: iterations 802 to 851. -/
theorem round1_loop16 : pbkdf2LoopWords ⟨⟨743857736, 3644699138, 1809550338, 3278547328,
    1534488382, 4043141210, 2238938759, 1354851885⟩, ⟨3893004616, 1157983978, 140513215,
    3810640104, 1947386825, 2682796121, 1161181984, 4269261629⟩⟩ 50 (⟨2355030266, 2278173287,
    1376748668, 149967579, 213975930, 868816531, 3284875203, 2338488494⟩, ⟨386403519, 598324358,
    203145801, 54586135, 3267364481, 2107144137, 2059948705, 3514448732⟩) = (⟨2167939577,
    769092209, 1993819444, 3144978545, 1730034908, 1287880553, 2061042446, 2642985108⟩,
    ⟨919438327, 1160918497, 1432526003, 586702934, 2064273592, 3179798320, 3356870897,
    2417952452⟩) := by
  rw [← pbkdf2LoopFast_eq]
  decide!

/-- First round of the known vector: iterations 852 to 901. -/
theorem round1_loop17 : pbkdf2LoopWords ⟨⟨743857736, 3644699138, 1809550338, 3278547328,
    1534488382, 4043141210, 2238938759, 1354851885⟩, ⟨3893004616, 1157983978, 140513215,
    3810640104, 1947386825, 2682796121, 1161181984, 4269261629⟩⟩ 50 (⟨2167939577, 769092209,
    1993819444, 3144978545, 1730034908, 1287880553, 2061042446, 2642985108⟩, ⟨919438327,
    1160918497, 1432526003, 586702934, 2064273592, 3179798320, 3356870897, 2417952452⟩) =
    (⟨3849199017, 1687815801, 640206788, 1539284523, 3358355092, 1020904922, 1173025429,
    3367871138⟩, ⟨3633075431, 4243117014, 407550669, 2444618930, 1271956958, 2693594125,
    3551698924, 4166266514⟩) := by
  rw [← pbkdf2LoopFast_eq]
  decide!

/-- First round of the known vector: iterations 902 to 951. -/
theorem round1_loop18 : pbkdf2LoopWords ⟨⟨743857736, 3644699138, 1809550338, 3278547328,
    1534488382, 4043141210, 2238938759, 1354851885⟩, ⟨3893004616, 1157983978, 140513215,
    3810640104, 1947386825, 2682796121, 1161181984, 4269261629⟩⟩ 50 (⟨3849199017, 1687815801,
    640206788, 1539284523, 3358355092, 1020904922, 1173025429, 3367871138⟩, ⟨3633075431,
    4243117014, 407550669, 2444618930, 1271956958, 2693594125, 3551698924, 4166266514⟩) =
    (⟨3919124932, 1802780333, 3586392785, 1620686621, 700842882, 4103402158, 2143790007,
    1979886907⟩, ⟨3344801674, 1137846437, 149671392, 3863120075, 2373380871, 3623903536,
    2892023912, 2485932172⟩) := by
  rw [← pbkdf2LoopFast_eq]
  decide!

/-- First round of the known vector: iterations 952 to 1000. -/
theorem round1_loop19 : pbkdf2LoopWords ⟨⟨743857736, 3644699138, 1809550338, 3278547328,
    1534488382, 4043141210, 2238938759, 1354851885⟩, ⟨3893004616, 1157983978, 140513215,
    3810640104, 1947386825, 2682796121, 1161181984, 4269261629⟩⟩ 49 (⟨3919124932, 1802780333,
    3586392785, 1620686621, 700842882, 4103402158, 2143790007, 1979886907⟩, ⟨3344801674,
    1137846437, 149671392, 3863120075, 2373380871, 3623903536, 2892023912, 2485932172⟩) =
    (⟨360298461, 3539407938, 4293712745, 2324304442, 703886082, 746025775, 1965454899,
    3827931422⟩, ⟨2217083036, 3025596661, 476108970, 3612685241, 3669847531, 2906953407,
    1153869598, 1379286086⟩) := by
  rw [← pbkdf2LoopFast_eq]
  decide!

/-- First round of the known vector: the derived key. -/
theorem round1_key : pbkdf2Key (ascii "cga4233") (ascii "ruf32WxGYH98") 1000 16 = [132, 38, 0,
    156, 180, 86, 240, 245, 28, 96, 216, 170, 215, 85, 51, 185] := by
  rw [pbkdf2Key_of_words _ _ _ _ _ _ round1_prf (by decide) (by decide) round1_first (by decide)
    (pbkdf2LoopWords_chain _ 50 949 _ _ _ round1_loop0
      (pbkdf2LoopWords_chain _ 50 899 _ _ _ round1_loop1
      (pbkdf2LoopWords_chain _ 50 849 _ _ _ round1_loop2
      (pbkdf2LoopWords_chain _ 50 799 _ _ _ round1_loop3
      (pbkdf2LoopWords_chain _ 50 749 _ _ _ round1_loop4
      (pbkdf2LoopWords_chain _ 50 699 _ _ _ round1_loop5
      (pbkdf2LoopWords_chain _ 50 649 _ _ _ round1_loop6
      (pbkdf2LoopWords_chain _ 50 599 _ _ _ round1_loop7
      (pbkdf2LoopWords_chain _ 50 549 _ _ _ round1_loop8
      (pbkdf2LoopWords_chain _ 50 499 _ _ _ round1_loop9
      (pbkdf2LoopWords_chain _ 50 449 _ _ _ round1_loop10
      (pbkdf2LoopWords_chain _ 50 399 _ _ _ round1_loop11
      (pbkdf2LoopWords_chain _ 50 349 _ _ _ round1_loop12
      (pbkdf2LoopWords_chain _ 50 299 _ _ _ round1_loop13
      (pbkdf2LoopWords_chain _ 50 249 _ _ _ round1_loop14
      (pbkdf2LoopWords_chain _ 50 199 _ _ _ round1_loop15
      (pbkdf2LoopWords_chain _ 50 149 _ _ _ round1_loop16
      (pbkdf2LoopWords_chain _ 50 99 _ _ _ round1_loop17
      (pbkdf2LoopWords_chain _ 50 49 _ _ _ round1_loop18
      round1_loop19)))))))))))))))))))]
  decide

/-- Second round of the known vector: the keyed HMAC states. -/
theorem round2_prf : hmacNew (ascii "8426009cb456f0f51c60d8aad75533b9") = ⟨⟨851351833,
    3001907899, 3829733368, 1948390967, 943034395, 2818731458, 686774285, 232472127⟩,
    ⟨593175728, 3147435657, 2393975228, 1208607724, 2869095796, 2822052723, 831574562,
    3142749158⟩⟩ := by
  decide!

/-- Second round of the known vector: the first PRF output `U_1`. -/
theorem round2_first : hmacSum ⟨⟨851351833, 3001907899, 3829733368, 1948390967, 943034395,
    2818731458, 686774285, 232472127⟩, ⟨593175728, 3147435657, 2393975228, 1208607724,
    2869095796, 2822052723, 831574562, 3142749158⟩⟩ (ascii "a1etwcG3XV7P" ++ bytesBE 4 1) =
    sha256Digest ⟨78989278, 294989962, 3195838887, 1345392035, 1399807361, 4261008000,
    3346280279, 1205989234⟩ := by
  decide!

/-- Second round of the known vector: iterations 2 to 51. -/
theorem round2_loop0 : pbkdf2LoopWords ⟨⟨851351833, 3001907899, 3829733368, 1948390967,
    943034395, 2818731458, 686774285, 232472127⟩, ⟨593175728, 3147435657, 2393975228,
    1208607724, 2869095796, 2822052723, 831574562, 3142749158⟩⟩ 50 (⟨78989278, 294989962,
    3195838887, 1345392035, 1399807361, 4261008000, 3346280279, 1205989234⟩, ⟨78989278,
    294989962, 3195838887, 1345392035, 1399807361, 4261008000, 3346280279, 1205989234⟩) =
    (⟨2097136610, 785003980, 880838660, 3351549827, 2238571648, 3130032769, 3824812330,
    1577894704⟩, ⟨179880050, 4106887708, 1981795914, 2200319244, 3348166801, 72884952,
    1668787634, 3397516007⟩) := by
  rw [← pbkdf2LoopFast_eq]
  decide!

/-- Second round of the known vector: iterations 52 to 101. -/
theorem round2_loop1 : pbkdf2LoopWords ⟨⟨851351833, 3001907899, 3829733368, 1948390967,
    943034395, 2818731458, 686774285, 232472127⟩, ⟨593175728, 3147435657, 2393975228,
    1208607724, 2869095796, 2822052723, 831574562, 3142749158⟩⟩ 50 (⟨2097136610, 785003980,
    880838660, 3351549827, 2238571648, 3130032769, 3824812330, 1577894704⟩, ⟨179880050,
    4106887708, 1981795914, 2200319244, 3348166801, 72884952, 1668787634, 3397516007⟩) =
    (⟨4120086111, 1656123469, 4283938824, 3019849707, 4286101846, 2905777056, 4038071860,
    1949466785⟩, ⟨2234393454, 227989756, 3889627747, 2473523537, 3203022465, 1988653986,
    1558433530, 1840475298⟩) := by
  rw [← pbkdf2LoopFast_eq]
  decide!

/-- Second round of the known vector: iterations 102 to 151. -/
theorem round2_loop2 : pbkdf2LoopWords ⟨⟨851351833, 3001907899, 3829733368, 1948390967,
    943034395, 2818731458, 686774285, 232472127⟩, ⟨593175728, 3147435657, 2393975228,
    1208607724, 2869095796, 2822052723, 831574562, 3142749158⟩⟩ 50 (⟨4120086111, 1656123469,
    4283938824, 3019849707, 4286101846, 2905777056, 4038071860, 1949466785⟩, ⟨2234393454,
    227989756, 3889627747, 2473523537, 3203022465, 1988653986, 1558433530, 1840475298⟩) =
    (⟨2777544924, 2972587299, 2163439452, 473581326, 2958895415, 1647967437, 3753947314,
    2673883843⟩, ⟨2128236361, 398675976, 3197414854, 935639264, 2135031293, 3322824032,
    1638422683, 4117561401⟩) := by
  rw [← pbkdf2LoopFast_eq]
  decide!

/-- Second round of the known vector: iterations 152 to 201. -/
theorem round2_loop3 : pbkdf2LoopWords ⟨⟨851351833, 3001907899, 3829733368, 1948390967,
    943034395, 2818731458, 686774285, 232472127⟩, ⟨593175728, 3147435657, 2393975228,
    1208607724, 2869095796, 2822052723, 831574562, 3142749158⟩⟩ 50 (⟨2777544924, 2972587299,
    2163439452, 473581326, 2958895415, 1647967437, 3753947314, 2673883843⟩, ⟨2128236361,
    398675976, 3197414854, 935639264, 2135031293, 3322824032, 1638422683, 4117561401⟩) =
    (⟨2854970949, 3422454554, 1945880880, 2312031865, 4032345992, 3250785292, 2577404300,
    1917809925⟩, ⟨4264209863, 2259976116, 3030750143, 1490749545, 1186443816, 2889230670,
    4263241445, 3106604055⟩) := by
  rw [← pbkdf2LoopFast_eq]
  decide!

/-- Second round of the known vector: iterations 202 to 251. -/
theorem round2_loop4 : pbkdf2LoopWords ⟨⟨851351833, 3001907899, 3829733368, 1948390967,
    943034395, 2818731458, 686774285, 232472127⟩, ⟨593175728, 3147435657, 2393975228,
    1208607724, 2869095796, 2822052723, 831574562, 3142749158⟩⟩ 50 (⟨2854970949, 3422454554,
    1945880880, 2312031865, 4032345992, 3250785292, 2577404300, 1917809925⟩, ⟨4264209863,
    2259976116, 3030750143, 1490749545, 1186443816, 2889230670, 4263241445, 3106604055⟩) =
    (⟨667256992, 1081326285, 778367054, 4025080493, 2265344213, 3407683809, 995237524,
    1967757323⟩, ⟨4194769225, 4110809820, 2801136725, 2342836288, 1574019514, 4070584329,
    1981467274, 3615834086⟩) := by
  rw [← pbkdf2LoopFast_eq]
  decide!

/-- Second round of the known vector: iterations 252 to 301. -/
theorem round2_loop5 : pbkdf2LoopWords ⟨⟨851351833, 3001907899, 3829733368, 1948390967,
    943034395, 2818731458, 686774285, 232472127⟩, ⟨593175728, 3147435657, 2393975228,
    1208607724, 2869095796, 2822052723, 831574562, 3142749158⟩⟩ 50 (⟨667256992, 1081326285,
    778367054, 4025080493, 2265344213, 3407683809, 995237524, 1967757323⟩, ⟨4194769225,
    4110809820, 2801136725, 2342836288, 1574019514, 4070584329, 1981467274, 3615834086⟩) =
    (⟨907958803, 3096885541, 1009872327, 757381864, 2374726858, 394128305, 1435822055,
    2746453732⟩, ⟨1623736646, 4154864169, 4292820032, 2585533319, 1051948457, 2026925968,
    1041559536, 1844011815⟩) := by
  rw [← pbkdf2LoopFast_eq]
  decide!

/-- Second round of the known vector: iterations 302 to 351. -/
theorem round2_loop6 : pbkdf2LoopWords ⟨⟨851351833, 3001907899, 3829733368, 1948390967,
    943034395, 2818731458, 686774285, 232472127⟩, ⟨593175728, 3147435657, 2393975228,
    1208607724, 2869095796, 2822052723, 831574562, 3142749158⟩⟩ 50 (⟨907958803, 3096885541,
    1009872327, 757381864, 2374726858, 394128305, 1435822055, 2746453732⟩, ⟨1623736646,
    4154864169, 4292820032, 2585533319, 1051948457, 2026925968, 1041559536, 1844011815⟩) =
    (⟨1074167829, 371654989, 3465384172, 3154495874, 1582157038, 2095318331, 1462739314,
    135121188⟩, ⟨3715664696, 61400025, 379061641, 2773978062, 3226927466, 708307130, 1557773018,
    2683724918⟩) := by
  rw [← pbkdf2LoopFast_eq]
  decide!

/-- Second round of the known vector: iterations 352 to 401. -/
theorem round2_loop7 : pbkdf2LoopWords ⟨⟨851351833, 3001907899, 3829733368, 1948390967,
    943034395, 2818731458, 686774285, 232472127⟩, ⟨593175728, 3147435657, 2393975228,
    1208607724, 2869095796, 2822052723, 831574562, 3142749158⟩⟩ 50 (⟨1074167829, 371654989,
    3465384172, 3154495874, 1582157038, 2095318331, 1462739314, 135121188⟩, ⟨3715664696,
    61400025, 379061641, 2773978062, 3226927466, 708307130, 1557773018, 2683724918⟩) =
    (⟨1380030638, 1131937933, 3711327808, 2508953602, 2534865992, 1852062038, 3783029813,
    937882684⟩, ⟨96598058, 2930768800, 1491016567, 3931650557, 3287627862, 782938777,
    1158666728, 139849463⟩) := by
  rw [← pbkdf2LoopFast_eq]
  decide!

/-- Second round of the known vector: iterations 402 to 451. -/
theorem round2_loop8 : pbkdf2LoopWords ⟨⟨851351833, 3001907899, 3829733368, 1948390967,
    943034395, 2818731458, 686774285, 232472127⟩, ⟨593175728, 3147435657, 2393975228,
    1208607724, 2869095796, 2822052723, 831574562, 3142749158⟩⟩ 50 (⟨1380030638, 1131937933,
    3711327808, 2508953602, 2534865992, 1852062038, 3783029813, 937882684⟩, ⟨96598058,
    2930768800, 1491016567, 3931650557, 3287627862, 782938777, 1158666728, 139849463⟩) =
    (⟨2127129661, 2366660520, 1744845741, 1950418443, 758937438, 343982572, 1001448478,
    1394755283⟩, ⟨3244990451, 4278703922, 470384008, 1572918154, 3187520053, 706172217,
    1641804999, 1514347672⟩) := by
  rw [← pbkdf2LoopFast_eq]
  decide!

/-- Second round of the known vector: iterations 452 to 501. -/
theorem round2_loop9 : pbkdf2LoopWords ⟨⟨851351833, 3001907899, 3829733368, 1948390967,
    943034395, 2818731458, 686774285, 232472127⟩, ⟨593175728, 3147435657, 2393975228,
    1208607724, 2869095796, 2822052723, 831574562, 3142749158⟩⟩ 50 (⟨2127129661, 2366660520,
    1744845741, 1950418443, 758937438, 343982572, 1001448478, 1394755283⟩, ⟨3244990451,
    4278703922, 470384008, 1572918154, 3187520053, 706172217, 1641804999, 1514347672⟩) =
    (⟨3443481860, 3569568464, 1404339575, 704847118, 1945896668, 3159355173, 3817607156,
    4108415833⟩, ⟨1791988819, 630804690, 1847140008, 4239230404, 3986347313, 2654205449,
    1916951214, 3086613341⟩) := by
  rw [← pbkdf2LoopFast_eq]
  decide!

/-- Second round of the known vector: iterations 502 to 551. -/
theorem round2_loop10 : pbkdf2LoopWords ⟨⟨851351833, 3001907899, 3829733368, 1948390967,
    943034395, 2818731458, 686774285, 232472127⟩, ⟨593175728, 3147435657, 2393975228,
    1208607724, 2869095796, 2822052723, 831574562, 3142749158⟩⟩ 50 (⟨3443481860, 3569568464,
    1404339575, 704847118, 1945896668, 3159355173, 3817607156, 4108415833⟩, ⟨1791988819,
    630804690, 1847140008, 4239230404, 3986347313, 2654205449, 1916951214, 3086613341⟩) =
    (⟨641309537, 4277953383, 543741532, 2841082280, 2797883503, 529745762, 1930721383,
    934536804⟩, ⟨567131511, 3915681126, 1218386769, 1748805596, 898001287, 4020556365,
    281161100, 1322730986⟩) := by
  rw [← pbkdf2LoopFast_eq]
  decide!

/-- Second round of the known vector: iterations 552 to 601. -/
theorem round2_loop11 : pbkdf2LoopWords ⟨⟨851351833, 3001907899, 3829733368, 1948390967,
    943034395, 2818731458, 686774285, 232472127⟩, ⟨593175728, 3147435657, 2393975228,
    1208607724, 2869095796, 2822052723, 831574562, 3142749158⟩⟩ 50 (⟨641309537, 4277953383,
    543741532, 2841082280, 2797883503, 529745762, 1930721383, 934536804⟩, ⟨567131511,
    3915681126, 1218386769, 1748805596, 898001287, 4020556365, 281161100, 1322730986⟩) =
    (⟨3081008693, 224346479, 326483656, 3135254635, 236081838, 2840774225, 379218934,
    1182747146⟩, ⟨3157108322, 2384981737, 762344094, 1378881756, 724057371, 1211472752,
    1396277825, 3805104258⟩) := by
  rw [← pbkdf2LoopFast_eq]
  decide!

/-- Second round of the known vector: iterations 602 to 651. -/
theorem round2_loop12 : pbkdf2LoopWords ⟨⟨851351833, 3001907899, 3829733368, 1948390967,
    943034395, 2818731458, 686774285, 232472127⟩, ⟨593175728, 3147435657, 2393975228,
    1208607724, 2869095796, 2822052723, 831574562, 3142749158⟩⟩ 50 (⟨3081008693, 224346479,
    326483656, 3135254635, 236081838, 2840774225, 379218934, 1182747146⟩, ⟨3157108322,
    2384981737, 762344094, 1378881756, 724057371, 1211472752, 1396277825, 3805104258⟩) =
    (⟨2586531635, 3894930999, 334010995, 1699971612, 3000334037, 455385768, 508839474,
    1160907878⟩, ⟨3110843514, 1623690131, 2494058213, 460126179, 3741885315, 3118372859,
    2434049655, 1977075834⟩) := by
  rw [← pbkdf2LoopFast_eq]
  decide!

/-- Second round of the known vector: iterations 652 to 701. -/
theorem round2_loop13 : pbkdf2LoopWords ⟨⟨851351833, 3001907899, 3829733368, 1948390967,
    943034395, 2818731458, 686774285, 232472127⟩, ⟨593175728, 3147435657, 2393975228,
    1208607724, 2869095796, 2822052723, 831574562, 3142749158⟩⟩ 50 (⟨2586531635, 3894930999,
    334010995, 1699971612, 3000334037, 455385768, 508839474, 1160907878⟩, ⟨3110843514,
    1623690131, 2494058213, 460126179, 3741885315, 3118372859, 2434049655, 1977075834⟩) =
    (⟨821231967, 1963899684, 1803050244, 3676007104, 1063667811, 3942496909, 1797416983,
    2918326563⟩, ⟨914861289, 3544296497, 727548221, 3591091077, 4037232034, 2843692070,
    2872357758, 1792750125⟩) := by
  rw [← pbkdf2LoopFast_eq]
  decide!

/-- Second round of the known vector: iterations 702 to 751. -/
theorem round2_loop14 : pbkdf2LoopWords ⟨⟨851351833, 3001907899, 3829733368, 1948390967,
    943034395, 2818731458, 686774285, 232472127⟩, ⟨593175728, 3147435657, 2393975228,
    1208607724, 2869095796, 2822052723, 831574562, 3142749158⟩⟩ 50 (⟨821231967, 1963899684,
    1803050244, 3676007104, 1063667811, 3942496909, 1797416983, 2918326563⟩, ⟨914861289,
    3544296497, 727548221, 3591091077, 4037232034, 2843692070, 2872357758, 1792750125⟩) =
    (⟨2162742991, 4038437335, 552862595, 527489955, 745638156, 3415925597, 844902078,
    3504913214⟩, ⟨3014879144, 1958203487, 4123824225, 2809923039, 572671529, 119396739,
    3500514719, 2308384388⟩) := by
  rw [← pbkdf2LoopFast_eq]
  decide!

/-- Second round of the known vector: iterations 752 to 801. -/
theorem round2_loop15 : pbkdf2LoopWords ⟨⟨851351833, 3001907899, 3829733368, 1948390967,
    943034395, 2818731458, 686774285, 232472127⟩, ⟨593175728, 3147435657, 2393975228,
    1208607724, 2869095796, 2822052723, 831574562, 3142749158⟩⟩ 50 (⟨2162742991, 4038437335,
    552862595, 527489955, 745638156, 3415925597, 844902078, 3504913214⟩, ⟨3014879144,
    1958203487, 4123824225, 2809923039, 572671529, 119396739, 3500514719, 2308384388⟩) =
    (⟨2383794427, 2643854616, 2103244053, 4007142121, 1803385691, 810172812, 1656000720,
    693938605⟩, ⟨2120718686, 572665821, 3081367325, 3222828031, 2851192837, 2378352935,
    2086892617, 3629108140⟩) := by
  rw [← pbkdf2LoopFast_eq]
  decide!

/-- Second round of the known vector: iterations 802 to 851. -/
theorem round2_loop16 : pbkdf2LoopWords ⟨⟨851351833, 3001907899, 3829733368, 1948390967,
    943034395, 2818731458, 686774285, 232472127⟩, ⟨593175728, 3147435657, 2393975228,
    1208607724, 2869095796, 2822052723, 831574562, 3142749158⟩⟩ 50 (⟨2383794427, 2643854616,
    2103244053, 4007142121, 1803385691, 810172812, 1656000720, 693938605⟩, ⟨2120718686,
    572665821, 3081367325, 3222828031, 2851192837, 2378352935, 2086892617, 3629108140⟩) =
    (⟨3416512767, 3504551694, 3054522992, 3286709951, 2062914396, 2947977590, 456897662,
    224410618⟩, ⟨2650559384, 3745034101, 1928933153, 2224981726, 3663052842, 630743343,
    4283049363, 3307295802⟩) := by
  rw [← pbkdf2LoopFast_eq]
  decide!

/-- Second round of the known vector: iterations 852 to 901. -/
theorem round2_loop17 : pbkdf2LoopWords ⟨⟨851351833, 3001907899, 3829733368, 1948390967,
    943034395, 2818731458, 686774285, 232472127⟩, ⟨593175728, 3147435657, 2393975228,
    1208607724, 2869095796, 2822052723, 831574562, 3142749158⟩⟩ 50 (⟨3416512767, 3504551694,
    3054522992, 3286709951, 2062914396, 2947977590, 456897662, 224410618⟩, ⟨2650559384,
    3745034101, 1928933153, 2224981726, 3663052842, 630743343, 4283049363, 3307295802⟩) =
    (⟨4033554850, 210781971, 3162832925, 2155421630, 1145842609, 4093482386, 1588638197,
    274655520⟩, ⟨3026764689, 2112589511, 3430140472, 1213459534, 935028166, 1190326981,
    490745787, 3204498253⟩) := by
  rw [← pbkdf2LoopFast_eq]
  decide!

/-- Second round of the known vector: iterations 902 to 951. -/
theorem round2_loop18 : pbkdf2LoopWords ⟨⟨851351833, 3001907899, 3829733368, 1948390967,
    943034395, 2818731458, 686774285, 232472127⟩, ⟨593175728, 3147435657, 2393975228,
    1208607724, 2869095796, 2822052723, 831574562, 3142749158⟩⟩ 50 (⟨4033554850, 210781971,
    3162832925, 2155421630, 1145842609, 4093482386, 1588638197, 274655520⟩, ⟨3026764689,
    2112589511, 3430140472, 1213459534, 935028166, 1190326981, 490745787, 3204498253⟩) =
    (⟨1282426124, 1473698185, 2385657451, 3323189, 1428225898, 2246589332, 3025694556,
    591224015⟩, ⟨164219043, 3120048505, 2740958784, 1596218207, 2768669131, 3411660225,
    471160726, 3832197475⟩) := by
  rw [← pbkdf2LoopFast_eq]
  decide!

/-- Second round of the known vector: iterations 952 to 1000. -/
theorem round2_loop19 : pbkdf2LoopWords ⟨⟨851351833, 3001907899, 3829733368, 1948390967,
    943034395, 2818731458, 686774285, 232472127⟩, ⟨593175728, 3147435657, 2393975228,
    1208607724, 2869095796, 2822052723, 831574562, 3142749158⟩⟩ 49 (⟨1282426124, 1473698185,
    2385657451, 3323189, 1428225898, 2246589332, 3025694556, 591224015⟩, ⟨164219043, 3120048505,
    2740958784, 1596218207, 2768669131, 3411660225, 471160726, 3832197475⟩) = (⟨2860411412,
    2727339237, 3802056576, 4254350419, 3385023347, 4094920036, 1114845427, 2643805842⟩,
    ⟨3386216202, 3934346620, 2883937894, 984118421, 1887430247, 3145056297, 1340674546,
    73542661⟩) := by
  rw [← pbkdf2LoopFast_eq]
  decide!

/-- Second round of the known vector: the derived key. -/
theorem round2_key : pbkdf2Key (ascii "8426009cb456f0f51c60d8aad75533b9") (ascii "a1etwcG3XV7P")
    1000 16 = [201, 213, 143, 10, 234, 129, 93, 124, 171, 229, 102, 102, 58, 168, 116, 149] :=
    by
  rw [pbkdf2Key_of_words _ _ _ _ _ _ round2_prf (by decide) (by decide) round2_first (by decide)
    (pbkdf2LoopWords_chain _ 50 949 _ _ _ round2_loop0
      (pbkdf2LoopWords_chain _ 50 899 _ _ _ round2_loop1
      (pbkdf2LoopWords_chain _ 50 849 _ _ _ round2_loop2
      (pbkdf2LoopWords_chain _ 50 799 _ _ _ round2_loop3
      (pbkdf2LoopWords_chain _ 50 749 _ _ _ round2_loop4
      (pbkdf2LoopWords_chain _ 50 699 _ _ _ round2_loop5
      (pbkdf2LoopWords_chain _ 50 649 _ _ _ round2_loop6
      (pbkdf2LoopWords_chain _ 50 599 _ _ _ round2_loop7
      (pbkdf2LoopWords_chain _ 50 549 _ _ _ round2_loop8
      (pbkdf2LoopWords_chain _ 50 499 _ _ _ round2_loop9
      (pbkdf2LoopWords_chain _ 50 449 _ _ _ round2_loop10
      (pbkdf2LoopWords_chain _ 50 399 _ _ _ round2_loop11
      (pbkdf2LoopWords_chain _ 50 349 _ _ _ round2_loop12
      (pbkdf2LoopWords_chain _ 50 299 _ _ _ round2_loop13
      (pbkdf2LoopWords_chain _ 50 249 _ _ _ round2_loop14
      (pbkdf2LoopWords_chain _ 50 199 _ _ _ round2_loop15
      (pbkdf2LoopWords_chain _ 50 149 _ _ _ round2_loop16
      (pbkdf2LoopWords_chain _ 50 99 _ _ _ round2_loop17
      (pbkdf2LoopWords_chain _ 50 49 _ _ _ round2_loop18
      round2_loop19)))))))))))))))))))]
  decide

/-- C2. Two-round derivation: for a salt other than the sentinel the derived password is
the hex text of PBKDF2-HMAC-SHA256 (1000 iterations, 16 bytes) of the hex text of the same
over the password, that is `defaultDoPBKDF2` applied twice; each round is a 16-byte key in 32
lower-case hex digits. On the known vector the first round is
`8426009cb456f0f51c60d8aad75533b9` and the result `c9d58f0aea815d7cabe566663aa87495`. -/
theorem derive_two_round :
    (∀ p s w : Bytes, s ≠ ascii "none" →
      DefaultDerivePasswordWebUI p s w =
          hexEncode (pbkdf2Key (hexEncode (pbkdf2Key p s 1000 16)) w 1000 16) ∧
        DefaultDerivePasswordWebUI p s w = defaultDoPBKDF2 (defaultDoPBKDF2 p s) w ∧
        (pbkdf2Key p s 1000 16).length = 16 ∧
        (defaultDoPBKDF2 p s).length = 32 ∧
        (∀ c ∈ defaultDoPBKDF2 p s, c ∈ hextable) ∧
        (DefaultDerivePasswordWebUI p s w).length = 32 ∧
        (∀ c ∈ DefaultDerivePasswordWebUI p s w, c ∈ hextable)) ∧
    defaultDoPBKDF2 (ascii "cga4233") (ascii "ruf32WxGYH98") =
      ascii "8426009cb456f0f51c60d8aad75533b9" ∧
    DefaultDerivePasswordWebUI (ascii "cga4233") (ascii "ruf32WxGYH98") (ascii "a1etwcG3XV7P") =
      ascii "c9d58f0aea815d7cabe566663aa87495" := by
  have hgen : ∀ p s w : Bytes, s ≠ ascii "none" →
      DefaultDerivePasswordWebUI p s w = defaultDoPBKDF2 (defaultDoPBKDF2 p s) w := by
    intro p s w hs
    rw [ascii_none] at hs
    simp [DefaultDerivePasswordWebUI, derivePasswordWebUI, hs, doPBKDF2WebUI, defaultDoPBKDF2]
  have h1 : defaultDoPBKDF2 (ascii "cga4233") (ascii "ruf32WxGYH98") =
      ascii "8426009cb456f0f51c60d8aad75533b9" := by
    unfold defaultDoPBKDF2 doPBKDF2 defaultPBKDF2iter defaultPBKDF2keyLenBytes
    rw [round1_key]
    decide
  refine ⟨fun p s w hs => ⟨?_, hgen p s w hs, length_pbkdf2Key _ _ _ _,
    (defaultDoPBKDF2_spec _ _).1, (defaultDoPBKDF2_spec _ _).2, ?_, ?_⟩, h1, ?_⟩
  · rw [hgen p s w hs]; rfl
  · rw [hgen p s w hs]; exact (defaultDoPBKDF2_spec _ _).1
  · rw [hgen p s w hs]; exact (defaultDoPBKDF2_spec _ _).2
  · rw [hgen _ _ _ (by decide), h1]
    unfold defaultDoPBKDF2 doPBKDF2 defaultPBKDF2iter defaultPBKDF2keyLenBytes
    rw [round2_key]
    decide

theorem derive_two_round_witness :
    ascii "ruf32WxGYH98" ≠ ascii "none" ∧
      DefaultDerivePasswordWebUI (ascii "cga4233") (ascii "ruf32WxGYH98") (ascii "a1etwcG3XV7P") =
        hexEncode (pbkdf2Key (hexEncode (pbkdf2Key (ascii "cga4233") (ascii "ruf32WxGYH98")
          1000 16)) (ascii "a1etwcG3XV7P") 1000 16) :=
  ⟨by decide, (derive_two_round.1 _ _ _ (by decide)).1⟩

/-! ## The envelope and the form fields -/

/-- C5. Envelope construction: with a 22-byte random text, a 16-byte IV and an 8-byte salt
the builder returns a body whose `login_password` entry is the JSON object with exactly the
members `cipher`, `mode`, `iv`, `salt`, `adata`, `ct`, `v`, `iter`, `ks`, `ts` (followed by the
encoder's newline), where `ct` is the base64 text of the AES-128-CBC encryption, under the raw
16-byte key and the IV, of `hash1prime` padded with one block of bytes `0x10`. On the input of
`TestNewPasswordChangeRequestBody` the members `iv` and `salt` and the other three entries are
the ones the test expects. -/
theorem envelope_construction :
    (∀ newUser oldPass newPass oldPassSalt rndBase62 aesIV newPassSalt : Bytes,
      rndBase62.length = 22 → aesIV.length = 16 → newPassSalt.length = 8 →
      newPasswordChangeRequestBody newUser oldPass newPass oldPassSalt rndBase62 aesIV
          newPassSalt =
        .ok (urlValuesEncode
          [(ascii "login_salt", rndBase62.take 11),
           (ascii "login_salt3", (rndBase62.take 22).drop 11),
           (ascii "login_password",
             jsonObject
               [(ascii "cipher", .str (ascii "aes")), (ascii "mode", .str (ascii "cbc")),
                (ascii "iv", .str (base64Encode aesIV)),
                (ascii "salt", .str (base64Encode newPassSalt)),
                (ascii "adata", .str []),
                (ascii "ct", .str (base64Encode
                  (cbcCryptBlocks
                    (aesExpandKey
                      (pbkdf2Key
                        (hexEncode (pbkdf2Key (hexEncode (pbkdf2Key oldPass oldPassSalt 1000 16))
                          ((rndBase62.take 22).drop 11) 1000 16))
                        newPassSalt 1000 16))
                    3 aesIV
                    (hexEncode (pbkdf2Key newPass (rndBase62.take 11) 1000 16) ++
                      List.replicate 16 16)))),
                (ascii "v", .int 1), (ascii "iter", .int 1000), (ascii "ks", .int 128),
                (ascii "ts", .int 64)] ++ [10]),
           (ascii "myusername", newUser)]) ∧
      (pbkdf2Key
        (hexEncode (pbkdf2Key (hexEncode (pbkdf2Key oldPass oldPassSalt 1000 16))
          ((rndBase62.take 22).drop 11) 1000 16))
        newPassSalt 1000 16).length = 16 ∧
      (hexEncode (pbkdf2Key newPass (rndBase62.take 11) 1000 16) ++
        List.replicate 16 16).length = 3 * 16) ∧
    newPasswordChangeRequestBody (ascii "custadmin") (ascii "cga4233") (ascii "Cga42331")
        (ascii "zkLfX9ED5GY=") testRndBase62 testAesIV testNewPassSalt =
      .ok (urlValuesEncode
        [(ascii "login_salt", ascii "N6F3cd9EK2X"),
         (ascii "login_salt3", ascii "Gas4VEakhP"),
         (ascii "login_password",
           jsonObject
             [(ascii "cipher", .str (ascii "aes")), (ascii "mode", .str (ascii "cbc")),
              (ascii "iv", .str (ascii "WFNEFQtSOoMtaZHr7trSig==")),
              (ascii "salt", .str (ascii "lur7srJozFE=")),
              (ascii "adata", .str []),
              (ascii "ct", .str (base64Encode
                (cbcCryptBlocks
                  (aesExpandKey
                    (pbkdf2Key
                      (hexEncode (pbkdf2Key
                        (hexEncode (pbkdf2Key (ascii "cga4233") (ascii "zkLfX9ED5GY=") 1000 16))
                        (ascii "Gas4VEakhP") 1000 16))
                      testNewPassSalt 1000 16))
                  3 testAesIV
                  (hexEncode (pbkdf2Key (ascii "Cga42331") (ascii "N6F3cd9EK2X") 1000 16) ++
                    List.replicate 16 16)))),
              (ascii "v", .int 1), (ascii "iter", .int 1000), (ascii "ks", .int 128),
              (ascii "ts", .int 64)] ++ [10]),
         (ascii "myusername", ascii "custadmin")]) := by
  constructor
  · intro newUser oldPass newPass oldPassSalt rndBase62 aesIV newPassSalt hr hiv _
    have htake : rndBase62.take 22 = rndBase62 := by
      rw [← hr]; exact List.take_length _
    rw [htake]
    refine ⟨newPasswordChangeRequestBody_ok _ _ _ _ _ _ _ (by omega) hiv,
      length_pbkdf2Key _ _ _ _, ?_⟩
    simp [length_hexEncode, length_pbkdf2Key]
  · have h1 : testRndBase62.take 11 = ascii "N6F3cd9EK2X" := by decide
    have h2 : testRndBase62.drop 11 = ascii "Gas4VEakhP" := by decide
    have h3 : base64Encode testAesIV = ascii "WFNEFQtSOoMtaZHr7trSig==" := by decide
    have h4 : base64Encode testNewPassSalt = ascii "lur7srJozFE=" := by decide
    rw [newPasswordChangeRequestBody_ok _ _ _ _ _ _ _ (by decide) (by decide), h1, h2, h3, h4]

theorem envelope_construction_witness :
    (List.replicate 22 65).length = 22 ∧ (List.replicate 16 0).length = 16 ∧
      (List.replicate 8 0).length = 8 ∧
      (pbkdf2Key
        (hexEncode (pbkdf2Key (hexEncode (pbkdf2Key [] [] 1000 16))
          (((List.replicate 22 65).take 22).drop 11) 1000 16))
        (List.replicate 8 0) 1000 16).length = 16 :=
  ⟨by decide, by decide, by decide,
    (envelope_construction.1 [] [] [] [] (List.replicate 22 65) (List.replicate 16 0)
      (List.replicate 8 0) (by decide) (by decide) (by decide)).2.1⟩

/-- C6, as stated, fails: with a random text of at least 11 bytes but an IV that is not 16
bytes long, here the empty one, the builder panics in `cipher.NewCBCEncrypter` and returns
no body. -/
theorem form_fields_counterexample :
    11 ≤ testRndBase62.length ∧
      newPasswordChangeRequestBody (ascii "custadmin") (ascii "cga4233") (ascii "Cga42331")
        (ascii "zkLfX9ED5GY=") testRndBase62 [] testNewPassSalt = .panic :=
  ⟨by decide, newPasswordChangeRequestBody_panic _ _ _ _ _ _ _ (by decide) (by decide)⟩

/-- C6, amended. Salt split and form fields: for a random text of at least 11 bytes and a
16-byte IV the body is the form encoding of exactly the four entries `login_salt`,
`login_salt3`, `login_password` and `myusername`, with `login_salt` the first 11 bytes,
`login_salt3` the remaining bytes (bytes 11 to 22 of a 22-byte text) and `myusername` the new
user. The input of the test yields `login_salt` `N6F3cd9EK2X` and `login_salt3`
`Gas4VEakhP`. -/
theorem form_fields :
    (∀ newUser oldPass newPass oldPassSalt rndBase62 aesIV newPassSalt : Bytes,
      11 ≤ rndBase62.length → aesIV.length = 16 →
      (∃ envelope,
        newPasswordChangeRequestBody newUser oldPass newPass oldPassSalt rndBase62 aesIV
            newPassSalt =
          .ok (urlValuesEncode
            [(ascii "login_salt", rndBase62.take 11),
             (ascii "login_salt3", rndBase62.drop 11),
             (ascii "login_password", envelope),
             (ascii "myusername", newUser)])) ∧
      rndBase62.take 11 ++ rndBase62.drop 11 = rndBase62 ∧
      (rndBase62.take 11).length = 11 ∧
      (rndBase62.length = 22 → rndBase62.drop 11 = (rndBase62.take 22).drop 11)) ∧
    (∀ a b c d : Bytes,
      urlValuesEncode [(ascii "login_salt", a), (ascii "login_salt3", b),
          (ascii "login_password", c), (ascii "myusername", d)] =
        ascii "login_password=" ++ queryEscape c ++ ascii "&login_salt=" ++ queryEscape a ++
          ascii "&login_salt3=" ++ queryEscape b ++ ascii "&myusername=" ++ queryEscape d) ∧
    (∃ envelope,
      newPasswordChangeRequestBody (ascii "custadmin") (ascii "cga4233") (ascii "Cga42331")
          (ascii "zkLfX9ED5GY=") testRndBase62 testAesIV testNewPassSalt =
        .ok (urlValuesEncode
          [(ascii "login_salt", ascii "N6F3cd9EK2X"),
           (ascii "login_salt3", ascii "Gas4VEakhP"),
           (ascii "login_password", envelope),
           (ascii "myusername", ascii "custadmin")])) := by
  refine ⟨fun newUser oldPass newPass oldPassSalt rndBase62 aesIV newPassSalt hr hiv =>
    ⟨⟨_, newPasswordChangeRequestBody_ok _ _ _ _ _ _ _ hr hiv⟩, List.take_append_drop _ _,
      by simp [List.length_take]; omega, fun h22 => ?_⟩, fun a b c d => ?_, ?_⟩
  · have htake : rndBase62.take 22 = rndBase62 := by
      rw [← h22]; exact List.take_length _
    rw [htake]
  · have hq1 : queryEscape (ascii "login_password") = ascii "login_password" := by decide
    have hq2 : queryEscape (ascii "login_salt") = ascii "login_salt" := by decide
    have hq3 : queryEscape (ascii "login_salt3") = ascii "login_salt3" := by decide
    have hq4 : queryEscape (ascii "myusername") = ascii "myusername" := by decide
    have e1 : ascii "login_password=" = ascii "login_password" ++ [61] := by decide
    have e2 : ascii "&login_salt=" = [38] ++ ascii "login_salt" ++ [61] := by decide
    have e3 : ascii "&login_salt3=" = [38] ++ ascii "login_salt3" ++ [61] := by decide
    have e4 : ascii "&myusername=" = [38] ++ ascii "myusername" ++ [61] := by decide
    unfold urlValuesEncode
    rw [sortByKey_body, e1, e2, e3, e4]
    simp [List.intersperse, hq1, hq2, hq3, hq4]
  · have h1 : testRndBase62.take 11 = ascii "N6F3cd9EK2X" := by decide
    have h2 : testRndBase62.drop 11 = ascii "Gas4VEakhP" := by decide
    have h := newPasswordChangeRequestBody_ok (ascii "custadmin") (ascii "cga4233")
      (ascii "Cga42331") (ascii "zkLfX9ED5GY=") testRndBase62 testAesIV testNewPassSalt
      (by decide) (by decide)
    rw [h1, h2] at h
    exact ⟨_, h⟩

theorem form_fields_witness :
    11 ≤ testRndBase62.length ∧ testAesIV.length = 16 ∧
      testRndBase62.take 11 ++ testRndBase62.drop 11 = testRndBase62 :=
  ⟨by decide, by decide,
    (form_fields.1 [] [] [] [] testRndBase62 testAesIV [] (by decide) (by decide)).2.1⟩

/-! ## Validation of a response -/

theorem asciiLower_eq_o (b : Nat) : asciiLower b = 111 ↔ b = 111 ∨ b = 79 := by
  unfold asciiLower
  split <;> omega

theorem asciiLower_eq_k (b : Nat) : asciiLower b = 107 ↔ b = 107 ∨ b = 75 := by
  unfold asciiLower
  split <;> omega

/-- The ASCII strings whose lower-cased form is `ok` are its four spellings. -/
theorem map_asciiLower_eq_ok (s : Bytes) :
    s.map asciiLower = ascii "ok" ↔
      s = ascii "ok" ∨ s = ascii "oK" ∨ s = ascii "Ok" ∨ s = ascii "OK" := by
  have hok : ascii "ok" = [111, 107] := by decide
  have hoK : ascii "oK" = [111, 75] := by decide
  have hOk : ascii "Ok" = [79, 107] := by decide
  have hOK : ascii "OK" = [79, 75] := by decide
  rw [hok, hoK, hOk, hOK]
  match s with
  | [] => simp
  | [x] => simp
  | [x, y] =>
    simp only [List.map_cons, List.map_nil, List.cons.injEq, and_true, asciiLower_eq_o,
      asciiLower_eq_k]
    constructor
    · rintro ⟨hx | hx, hy | hy⟩ <;> simp [hx, hy]
    · rintro (⟨hx, hy⟩ | ⟨hx, hy⟩ | ⟨hx, hy⟩ | ⟨hx, hy⟩) <;> simp [hx, hy]
  | x :: y :: z :: r => simp

/-- C11. Envelope validation rule. `Validate` returns no error exactly when the lower-cased
`Error` field is `ok`, which is to say that `Error` and `ok` have the same lower-cased form;
for an `Error` of ASCII bytes that means one of the spellings `ok`, `oK`, `Ok`, `OK`, and for
any other `Error` the library's lower-casing of its runes decides. When `Validate` does
return an error, the error carries `Error`, `Message` and `Data`. Two responses with the same
`Error` field validate alike, whatever their `Message` and `Data`. -/
theorem Validate_rule (unicodeLower : Bytes → Bytes) (r : response) :
    (r.Validate unicodeLower = none ↔
      stringsToLower unicodeLower r.Error = stringsToLower unicodeLower (ascii "ok")) ∧
    (r.Error.all (fun b => decide (b < 128)) = true →
      (r.Validate unicodeLower = none ↔
        r.Error = ascii "ok" ∨ r.Error = ascii "oK" ∨ r.Error = ascii "Ok" ∨
          r.Error = ascii "OK")) ∧
    (r.Error.all (fun b => decide (b < 128)) = false →
      (r.Validate unicodeLower = none ↔ unicodeLower r.Error = ascii "ok")) ∧
    (r.Validate unicodeLower ≠ none →
      r.Validate unicodeLower = some (.validate r.Error r.Message r.Data)) ∧
    (∀ message data : Bytes,
      ({ r with Message := message, Data := data } : response).Validate unicodeLower = none ↔
        r.Validate unicodeLower = none) := by
  have hok : stringsToLower unicodeLower (ascii "ok") = ascii "ok" := by
    unfold stringsToLower
    rw [if_pos (by decide)]
    decide
  refine ⟨?_, ?_, ?_, ?_, ?_⟩
  · rw [hok]; exact Validate_eq_none_iff _ _
  · intro h
    rw [Validate_eq_none_iff, ← map_asciiLower_eq_ok]
    unfold stringsToLower
    rw [if_pos h]
  · intro h
    rw [Validate_eq_none_iff]
    unfold stringsToLower
    rw [if_neg (by simp [h])]
  · intro h
    unfold response.Validate at h ⊢
    split
    · rfl
    · rename_i hne
      rw [if_neg hne] at h
      exact absurd rfl h
  · intro message data
    rw [Validate_eq_none_iff, Validate_eq_none_iff]

theorem Validate_rule_witness :
    ((⟨ascii "OK", ascii "m", ascii "d"⟩ : response).Validate (fun s => s) = none ↔
      ascii "OK" = ascii "ok" ∨ ascii "OK" = ascii "oK" ∨ ascii "OK" = ascii "Ok" ∨
        ascii "OK" = ascii "OK") ∧
    (⟨ascii "fail", ascii "denied", ascii "d"⟩ : response).Validate (fun s => s) =
      some (.validate (ascii "fail") (ascii "denied") (ascii "d")) :=
  ⟨(Validate_rule (fun s => s) ⟨ascii "OK", ascii "m", ascii "d"⟩).2.1 (by decide),
    (Validate_rule (fun s => s) ⟨ascii "fail", ascii "denied", ascii "d"⟩).2.2.2.1
      (by decide)⟩

/-! ## The builder under its length contract -/

/-- C12. The builder cannot fail under its length contract: with a 22-byte random text, a
16-byte IV and an 8-byte salt `newPasswordChangeRequestBody` returns a body. The derived key
has 16 bytes, so `aes.NewCipher` yields a cipher; `hash1prime` has 32 characters and its
padded form 48 bytes, a multiple of the block size, so `aes128cbc` returns a ciphertext. -/
theorem builder_never_fails (newUser oldPass newPass oldPassSalt rndBase62 aesIV
    newPassSalt : Bytes) (hr : rndBase62.length = 22) (hiv : aesIV.length = 16)
    (_hs : newPassSalt.length = 8) :
    (∃ body, newPasswordChangeRequestBody newUser oldPass newPass oldPassSalt rndBase62 aesIV
      newPassSalt = .ok body) ∧
    (pbkdf2Key (defaultDoPBKDF2 (defaultDoPBKDF2 oldPass oldPassSalt) (rndBase62.drop 11))
      newPassSalt 1000 16).length = 16 ∧
    aesNewCipher
      (pbkdf2Key (defaultDoPBKDF2 (defaultDoPBKDF2 oldPass oldPassSalt) (rndBase62.drop 11))
        newPassSalt 1000 16) ≠ none ∧
    (defaultDoPBKDF2 newPass (rndBase62.take 11)).length = 32 ∧
    (addPKCS5Padding (defaultDoPBKDF2 newPass (rndBase62.take 11))).length = 48 ∧
    (addPKCS5Padding (defaultDoPBKDF2 newPass (rndBase62.take 11))).length % 16 = 0 ∧
    (∃ ciphertext,
      aes128cbc
        (pbkdf2Key (defaultDoPBKDF2 (defaultDoPBKDF2 oldPass oldPassSalt) (rndBase62.drop 11))
          newPassSalt 1000 16)
        aesIV (defaultDoPBKDF2 newPass (rndBase62.take 11)) = .ok ciphertext) := by
  have hlen : (defaultDoPBKDF2 newPass (rndBase62.take 11)).length = 32 :=
    (defaultDoPBKDF2_spec _ _).1
  have hpad : (addPKCS5Padding (defaultDoPBKDF2 newPass (rndBase62.take 11))).length = 48 := by
    rw [length_addPKCS5Padding, hlen]
  refine ⟨⟨_, newPasswordChangeRequestBody_ok _ _ _ _ _ _ _ (by omega) hiv⟩,
    length_pbkdf2Key _ _ _ _, ?_, hlen, hpad, by rw [hpad], ⟨_, aes128cbc_ok
      (length_pbkdf2Key _ _ _ _) hiv (by rw [hlen])⟩⟩
  rw [aesNewCipher_of_length (length_pbkdf2Key _ _ _ _)]
  exact Option.some_ne_none _

theorem builder_never_fails_witness :
    (testRndBase62 ++ [48]).length = 22 ∧ testAesIV.length = 16 ∧
    testNewPassSalt.length = 8 ∧
    ∃ body, newPasswordChangeRequestBody (ascii "custadmin") (ascii "cga4233")
      (ascii "Cga42331") (ascii "zkLfX9ED5GY=") (testRndBase62 ++ [48]) testAesIV
      testNewPassSalt = .ok body :=
  ⟨by decide, by decide, by decide,
    (builder_never_fails _ _ _ _ (testRndBase62 ++ [48]) testAesIV testNewPassSalt
      (by decide) (by decide) (by decide)).1⟩

/-! ## Defaults of the parameters -/

theorem cmpOr_pair (a b : Bytes) : cmpOr [a, b] = if a = [] then b else a := by
  by_cases ha : a = [] <;> by_cases hb : b = [] <;> simp [cmpOr, ha, hb]

/-- The last statement of `WithDefaults` changes the two flags only, and clears them exactly
when the credentials are the default ones. -/
theorem clearFlags_fields (q r : Params)
    (hr : r = if q.Username = q.DefaultUsername ∧ q.Password = q.DefaultPassword then
      { q with TryDefaultAuthFirst := false, SetAuthIfDefault := false } else q) :
    r.BaseURL = q.BaseURL ∧ r.UserAgent = q.UserAgent ∧ r.Username = q.Username ∧
    r.Password = q.Password ∧ r.DefaultUsername = q.DefaultUsername ∧
    r.DefaultPassword = q.DefaultPassword ∧ r.TLSVerify = q.TLSVerify ∧
    r.TryDefaultAuthFirst =
      (if r.Username = r.DefaultUsername ∧ r.Password = r.DefaultPassword then false
        else q.TryDefaultAuthFirst) ∧
    r.SetAuthIfDefault =
      (if r.Username = r.DefaultUsername ∧ r.Password = r.DefaultPassword then false
        else q.SetAuthIfDefault) := by
  by_cases h : q.Username = q.DefaultUsername ∧ q.Password = q.DefaultPassword
  · rw [if_pos h] at hr
    subst hr
    exact ⟨rfl, rfl, rfl, rfl, rfl, rfl, rfl, (if_pos h).symm, (if_pos h).symm⟩
  · rw [if_neg h] at hr
    subst hr
    exact ⟨rfl, rfl, rfl, rfl, rfl, rfl, rfl, (if_neg h).symm, (if_neg h).symm⟩

/-- The fields of `p.WithDefaults()` in terms of those of `p`. -/
theorem WithDefaults_fields (p : Params) :
    p.WithDefaults.BaseURL = (if p.BaseURL = [] then DefaultBaseURL else p.BaseURL) ∧
    p.WithDefaults.UserAgent = (if p.UserAgent = [] then DefaultUserAgent else p.UserAgent) ∧
    p.WithDefaults.Username = (if p.Username = [] then defaultUsername else p.Username) ∧
    p.WithDefaults.Password = (if p.Password = [] then defaultPassword else p.Password) ∧
    p.WithDefaults.DefaultUsername =
      (if p.DefaultUsername = [] then defaultUsername else p.DefaultUsername) ∧
    p.WithDefaults.DefaultPassword =
      (if p.DefaultPassword = [] then defaultPassword else p.DefaultPassword) ∧
    p.WithDefaults.TLSVerify = p.TLSVerify ∧
    p.WithDefaults.TryDefaultAuthFirst =
      (if p.WithDefaults.Username = p.WithDefaults.DefaultUsername ∧
          p.WithDefaults.Password = p.WithDefaults.DefaultPassword then false
        else p.TryDefaultAuthFirst) ∧
    p.WithDefaults.SetAuthIfDefault =
      (if p.WithDefaults.Username = p.WithDefaults.DefaultUsername ∧
          p.WithDefaults.Password = p.WithDefaults.DefaultPassword then false
        else p.SetAuthIfDefault) := by
  have h := clearFlags_fields
    { p with
      BaseURL := cmpOr [p.BaseURL, DefaultBaseURL]
      UserAgent := cmpOr [p.UserAgent, DefaultUserAgent]
      Username := cmpOr [p.Username, defaultUsername]
      Password := cmpOr [p.Password, defaultPassword]
      DefaultUsername := cmpOr [p.DefaultUsername, defaultUsername]
      DefaultPassword := cmpOr [p.DefaultPassword, defaultPassword] }
    p.WithDefaults rfl
  simp only [cmpOr_pair] at h
  exact h

/-- C13. Default-credential flags are forced off. In `p.WithDefaults()` the four credential
fields are those of `p` with each empty one replaced by `custadmin` (user names) or
`cga4233` (passwords); if the resulting `Username` equals the resulting `DefaultUsername`
and the resulting `Password` equals the resulting `DefaultPassword`, the flags
`TryDefaultAuthFirst` and `SetAuthIfDefault` are both false; otherwise both are as in `p`. -/
theorem WithDefaults_flags (p : Params) :
    p.WithDefaults.Username = (if p.Username = [] then ascii "custadmin" else p.Username) ∧
    p.WithDefaults.Password = (if p.Password = [] then ascii "cga4233" else p.Password) ∧
    p.WithDefaults.DefaultUsername =
      (if p.DefaultUsername = [] then ascii "custadmin" else p.DefaultUsername) ∧
    p.WithDefaults.DefaultPassword =
      (if p.DefaultPassword = [] then ascii "cga4233" else p.DefaultPassword) ∧
    (p.WithDefaults.Username = p.WithDefaults.DefaultUsername ∧
        p.WithDefaults.Password = p.WithDefaults.DefaultPassword →
      p.WithDefaults.TryDefaultAuthFirst = false ∧ p.WithDefaults.SetAuthIfDefault = false) ∧
    (¬ (p.WithDefaults.Username = p.WithDefaults.DefaultUsername ∧
        p.WithDefaults.Password = p.WithDefaults.DefaultPassword) →
      p.WithDefaults.TryDefaultAuthFirst = p.TryDefaultAuthFirst ∧
        p.WithDefaults.SetAuthIfDefault = p.SetAuthIfDefault) := by
  obtain ⟨-, -, h3, h4, h5, h6, -, h8, h9⟩ := WithDefaults_fields p
  refine ⟨h3, h4, h5, h6, ?_, ?_⟩
  · intro h
    rw [h8, h9, if_pos h, if_pos h]
    exact ⟨rfl, rfl⟩
  · intro h
    rw [h8, h9, if_neg h, if_neg h]
    exact ⟨rfl, rfl⟩

theorem WithDefaults_flags_witness :
    ((sampleClient true true).toParams.WithDefaults.TryDefaultAuthFirst = true ∧
      (sampleClient true true).toParams.WithDefaults.SetAuthIfDefault = true) ∧
    (({ (sampleClient true true).toParams with Username := [], Password := ascii "cga4233" } :
        Params).WithDefaults.TryDefaultAuthFirst = false ∧
      ({ (sampleClient true true).toParams with Username := [], Password := ascii "cga4233" } :
        Params).WithDefaults.SetAuthIfDefault = false) :=
  ⟨(WithDefaults_flags (sampleClient true true).toParams).2.2.2.2.2 (by decide),
    (WithDefaults_flags { (sampleClient true true).toParams with
      Username := [], Password := ascii "cga4233" }).2.2.2.2.1 (by decide)⟩

/-! ## Known answers of the library models -/

/-- The SHA-256 digest of `abc` (FIPS 180-4, appendix B.1). -/
theorem sha256_abc :
    hexEncode (sha256 (ascii "abc")) =
      ascii "ba7816bf8f01cfea414140de5dae2223b00361a396177a9cb410ff61f20015ad" := by
  decide!

/-- The AES-128 example of FIPS 197, appendix C.1: key `00 01 .. 0f`, plaintext
`00 11 .. ff`. -/
theorem aes128_fips197 :
    hexEncode (aesEncryptBlock (aesExpandKey (List.range 16))
      ((List.range 16).map fun i => 17 * i)) = ascii "69c4e0d86a7b0430d8cdb78070b4c55a" := by
  decide!

/-- The cipher step on the data of `TestNewPasswordChangeRequestBody`: for the key
`bf2133f0a507014ef1c5542cc21420ab` and the text `8feccbc6f940e66bbf072635081c04eb` (the
encryption key and `hash1prime` that PBKDF2 gives on the input of the test, not replayed
here), the base64 ciphertext is the `ct` that the test expects. -/
theorem test_cipher_step :
    base64Encode (cbcCryptBlocks
      (aesExpandKey [191, 33, 51, 240, 165, 7, 1, 78, 241, 197, 84, 44, 194, 20, 32, 171])
      3 testAesIV (ascii "8feccbc6f940e66bbf072635081c04eb" ++ List.replicate 16 16)) =
      ascii "1azTPJuZR445LX1HahU/GMjubyDBmbh47+cfqaPdwJ14CqntqbZSRW3HHEffDc8m" := by
  decide!

end Technicolor
